import Mathlib

/-!
Verification development for the PCF structure codec and command-execution
helpers in `pymqi/mq_pcf.py` (classes `MQOptsWithEncoding`, `CFH`, `CFIN`,
`CFST`, `CFIL`, `CFSL`, `CFBS`, `PCFCommand`, `PCFCommandResponse`).

Modelling conventions:
* a byte buffer is a `List Nat` whose elements are below 256;
* 4-byte MQLONG fields are modelled as `Nat` in two's-complement
  representation (`v % 2^32`); all values exercised by the development are
  below `2^31`, where this agrees with Python's signed reading;
* Python exceptions are an explicit error type `PyErr` and fallible
  operations return `Except PyErr _`;
* the in-place mutation of an `MQOpts` instance is modelled by returning an
  updated record.
-/

/-- Bytes are naturals below 256; the bound is maintained by construction. -/
abbrev Byte := Nat

/-- Modelled from the spec: the numeric byte-order identifiers.  These are the
nine big-endian encoding values enumerated in
`MQOptsWithEncoding.big_endian_encodings` (sums of `MQENC_INTEGER_NORMAL = 1`,
`MQENC_DECIMAL_NORMAL = 16`, `MQENC_FLOAT_IEEE_NORMAL = 256` and
`MQENC_FLOAT_S390 = 768`); the constants come from `pymqi.CMQC`, which is part
of the repository but outside the sources given here. -/
def big_endian_encodings : List Nat := [1, 16, 256, 768, 17, 257, 272, 273, 785]

/-- An `encoding=None` default argument is `none`; the byte order is big-endian
exactly when the encoding value is in `big_endian_encodings`. -/
def isBigEnc : Option Nat → Bool
  | none => false
  | some e => big_endian_encodings.contains e

/-- Constants from `pymqi.CMQCFC` (structure type tags), defined by the MQ
interface headers of this repository (outside the given sources). -/
def MQCFT_RESPONSE : Nat := 2
def MQCFT_INTEGER : Nat := 3
def MQCFT_STRING : Nat := 4
def MQCFT_INTEGER_LIST : Nat := 5
def MQCFT_STRING_LIST : Nat := 6
def MQCFT_BYTE_STRING : Nat := 9
def MQCFT_COMMAND_XR : Nat := 16
def MQCFT_XR_MSG : Nat := 17
def MQCFT_XR_ITEM : Nat := 18
def MQCFT_XR_SUMMARY : Nat := 19

/-- Constants from `pymqi.CMQCFC` (fixed structure widths and header fields). -/
def MQCFH_STRUC_LENGTH : Nat := 36
def MQCFH_VERSION_3 : Nat := 3
def MQCFIN_STRUC_LENGTH : Nat := 16
def MQCFIL_STRUC_LENGTH_FIXED : Nat := 16
def MQCFST_STRUC_LENGTH_FIXED : Nat := 20
def MQCFSL_STRUC_LENGTH_FIXED : Nat := 24
def MQCFBS_STRUC_LENGTH_FIXED : Nat := 16
def MQCFC_LAST : Nat := 1
def MQCFC_NOT_LAST : Nat := 0
def MQCFT_COMMAND : Nat := 1
def MQCMD_NONE : Nat := 0
def MQCC_OK : Nat := 0
def MQRC_NONE : Nat := 0
def MQCCSI_DEFAULT : Nat := 0

/-- Read a byte of a buffer, position past the end giving 0. -/
def byteAt (bs : List Byte) (i : Nat) : Byte := bs.getD i 0

/-- Modelled from the spec: serialisation of one 4-byte integer field by
`pymqi.MQOpts.pack` (not among the given sources); the fixed fields are
written in the configured byte order, 4 bytes wide. -/
def encU32 (big : Bool) (v : Nat) : List Byte :=
  let v := v % 2 ^ 32
  let b0 := v / 2 ^ 24 % 256
  let b1 := v / 2 ^ 16 % 256
  let b2 := v / 2 ^ 8 % 256
  let b3 := v % 256
  if big then [b0, b1, b2, b3] else [b3, b2, b1, b0]

/-- Modelled from the spec: reading one 4-byte integer field at an offset, as
`pymqi.MQOpts.unpack` does (not among the given sources); bytes beyond the end
of the buffer are read as zero (the structure is zero-filled when the buffer
is shorter than the fixed region). -/
def decU32 (big : Bool) (bs : List Byte) (off : Nat) : Nat :=
  let b0 := byteAt bs off
  let b1 := byteAt bs (off + 1)
  let b2 := byteAt bs (off + 2)
  let b3 := byteAt bs (off + 3)
  if big then b0 * 2 ^ 24 + b1 * 2 ^ 16 + b2 * 2 ^ 8 + b3
  else b3 * 2 ^ 24 + b2 * 2 ^ 16 + b1 * 2 ^ 8 + b0

/-- Modelled from the spec: Python `struct.pack` of an `Ns` field - the value
is truncated to `n` bytes or padded with NUL bytes up to `n`. -/
def sfmt (n : Nat) (s : List Byte) : List Byte :=
  s.take n ++ List.replicate (n - s.length) 0

/-- The Python exceptions raised by `mq_pcf.py`, each constructor one raise
site (or one uncaught built-in exception). -/
inductive PyErr where
  /-- `PYIFError "Unsupported parameter type. Type: t"`. -/
  | unsupportedType (t : Nat)
  /-- `PYIFError "Converted string length not equal to StringLength ..."`. -/
  | transcodeMismatch (got expected : Nat)
  /-- `struct.error` from a `struct.unpack` on a buffer of the wrong size. -/
  | structError
  /-- `TypeError` from the malformed pad/truncate/concat expressions in
  `CFSL.add_string`. -/
  | typeError
  /-- `AttributeError`: `cf_p` is still `None` when `cf_p.pack` is called. -/
  | attributeNone
  /-- `AttributeError`: a `bytes` value has no `encode` method. -/
  | attributeEncode
  /-- `PYIFError "PCF Parameter tuple length is zero."`. -/
  | emptyDirective
  /-- `PYIFError "Unknown parameter type. Expected int, str or float."`. -/
  | unknownParamType
  /-- `PYIFError "Unknown parameter type. Expected cfin, cfst, etc."`. -/
  | unknownDirective
  /-- `PYIFError "PCF Structure List empty."`. -/
  | emptyStructList
  /-- `KeyError` from reading an absent `MQOpts` field. -/
  | keyError
  /-- `TypeError` from subscripting the `None` returned by `unpack_bag`. -/
  | noneIndexError
  /-- `MQMIError` surfaced by the transport with this reason code. -/
  | mqmi (reason : Nat)
deriving DecidableEq

/-- The `CFH` PCF header structure (9 MQLONG fields, `mq_pcf.py` lines
177-196).  The Python field `Type` is `type'` here (`Type` is reserved). -/
structure CFH where
  type' : Nat
  StrucLength : Nat
  Version : Nat
  Command : Nat
  MsgSeqNumber : Nat
  Control : Nat
  CompCode : Nat
  Reason : Nat
  ParameterCount : Nat
deriving DecidableEq

/-- `CFH()` with the default keyword values of `CFH.__init__`. -/
def CFH.init : CFH :=
  { type' := MQCFT_COMMAND, StrucLength := MQCFH_STRUC_LENGTH,
    Version := MQCFH_VERSION_3, Command := MQCMD_NONE, MsgSeqNumber := 1,
    Control := MQCFC_LAST, CompCode := MQCC_OK, Reason := MQRC_NONE,
    ParameterCount := 0 }

/-- `CFH.pack(encoding)`: nine 4-byte fields in the configured byte order
(`MQOptsWithEncoding.pack`). -/
def CFH.pack (encoding : Option Nat) (c : CFH) : List Byte :=
  let big := isBigEnc encoding
  encU32 big c.type' ++ encU32 big c.StrucLength ++ encU32 big c.Version ++
  encU32 big c.Command ++ encU32 big c.MsgSeqNumber ++ encU32 big c.Control ++
  encU32 big c.CompCode ++ encU32 big c.Reason ++ encU32 big c.ParameterCount

/-- `CFH.unpack(buff, encoding)` (`MQOptsWithEncoding.unpack`): read the nine
fixed fields in the configured byte order. -/
def CFH.unpack (encoding : Option Nat) (buff : List Byte) : CFH :=
  let big := isBigEnc encoding
  { type' := decU32 big buff 0, StrucLength := decU32 big buff 4,
    Version := decU32 big buff 8, Command := decU32 big buff 12,
    MsgSeqNumber := decU32 big buff 16, Control := decU32 big buff 20,
    CompCode := decU32 big buff 24, Reason := decU32 big buff 28,
    ParameterCount := decU32 big buff 32 }

/-- The `CFIN` integer-parameter structure (`mq_pcf.py` lines 295-308). -/
structure CFIN where
  type' : Nat
  StrucLength : Nat
  Parameter : Nat
  Value : Nat
deriving DecidableEq

/-- `CFIN()` defaults. -/
def CFIN.init : CFIN :=
  { type' := MQCFT_INTEGER, StrucLength := MQCFIN_STRUC_LENGTH,
    Parameter := 0, Value := 0 }

/-- `CFIN.pack(encoding)`. -/
def CFIN.pack (encoding : Option Nat) (c : CFIN) : List Byte :=
  let big := isBigEnc encoding
  encU32 big c.type' ++ encU32 big c.StrucLength ++ encU32 big c.Parameter ++
  encU32 big c.Value

/-- `CFIN.unpack(buff, encoding)` (inherited `MQOptsWithEncoding.unpack`):
the whole buffer is handed to `struct.unpack` against the 16-byte `iiii`
format, which raises `struct.error` on a longer slice (the short-buffer case
is zero-filled, see `decU32`). -/
def CFIN.unpack (encoding : Option Nat) (buff : List Byte) :
    Except PyErr CFIN :=
  if MQCFIN_STRUC_LENGTH < buff.length then .error .structError
  else
    let big := isBigEnc encoding
    .ok { type' := decU32 big buff 0, StrucLength := decU32 big buff 4,
          Parameter := decU32 big buff 8, Value := decU32 big buff 12 }

/-- The `CFST` string-parameter structure (`mq_pcf.py` lines 441-503).
`String` is the current value of the Python `String` attribute and `strFmts`
the widths of the `String` entries accumulated in the instance's `MQOpts`
field list: `set_string` appends a `"%is" % StringLength` entry without
checking for an existing one, so repeated calls duplicate the slot. -/
structure CFST where
  type' : Nat
  StrucLength : Nat
  Parameter : Nat
  CodedCharSetId : Nat
  StringLength : Nat
  String : List Byte
  strFmts : List Nat
deriving DecidableEq

/-- `CFST()` defaults: no `String` field yet (no slot). -/
def CFST.init : CFST :=
  { type' := MQCFT_STRING, StrucLength := MQCFST_STRUC_LENGTH_FIXED,
    Parameter := 0, CodedCharSetId := MQCCSI_DEFAULT, StringLength := 0,
    String := [], strFmts := [] }

/-- `CFST.set_string(value)` (`mq_pcf.py` lines 459-474): set `StringLength`
to the value's length, append another `String` entry (`"%is" % StringLength`)
to the field list, and recompute `StrucLength` only when it still equals the
fixed width or zero.  The new value survives only on the first call: the
source takes `saved_values = self.get()` before re-initialising and restores
them with `self.set(**saved_values)` afterwards, and once a `String` entry
exists `get()` captures the OLD string, so a repeated call restores it and
merely duplicates the payload slot. -/
def CFST.set_string (c : CFST) (string_value : List Byte) : CFST :=
  let StringLength := string_value.length
  let StrucLength :=
    if c.StrucLength = MQCFST_STRUC_LENGTH_FIXED ∨ c.StrucLength = 0 then
      MQCFST_STRUC_LENGTH_FIXED + string_value.length
    else c.StrucLength
  let String := if c.strFmts = [] then string_value else c.String
  { c with StringLength := StringLength, String := String,
           strFmts := c.strFmts ++ [StringLength], StrucLength := StrucLength }

/-- `CFST.pack(encoding)`: five fixed fields, then one `"%is"`-formatted
copy of the `String` attribute per accumulated slot (`struct.pack` truncates
or NUL-pads the value to each slot's width; every slot packs the same
attribute, so a duplicated slot packs the string twice).  The modelled
payload values are `bytes` - the paths traced here pass `bytes` - a Python
`str` in an `s` slot would raise `struct.error` under Python 3. -/
def CFST.pack (encoding : Option Nat) (c : CFST) : List Byte :=
  let big := isBigEnc encoding
  encU32 big c.type' ++ encU32 big c.StrucLength ++ encU32 big c.Parameter ++
  encU32 big c.CodedCharSetId ++ encU32 big c.StringLength ++
  c.strFmts.flatMap (fun n => sfmt n c.String)

/-- `CFST.unpack(buff, encoding)` (`mq_pcf.py` lines 476-501): fixed fields
from `buff[:20]`, then the string slice; a zero `StringLength` is replaced by
the residual length, otherwise the slice is `buff[20:20+StringLength]`;
`StrucLength` is recomputed only when it equals the fixed width or zero. -/
def CFST.unpack (encoding : Option Nat) (buff : List Byte) : CFST :=
  let big := isBigEnc encoding
  let StringLength0 := decU32 big buff 16
  let sv0 := buff.drop MQCFST_STRUC_LENGTH_FIXED
  let StringLength := if StringLength0 = 0 then sv0.length else StringLength0
  let string_value := if StringLength0 = 0 then sv0 else sv0.take StringLength0
  let StrucLength0 := decU32 big buff 4
  let StrucLength :=
    if StrucLength0 = MQCFST_STRUC_LENGTH_FIXED ∨ StrucLength0 = 0 then
      MQCFST_STRUC_LENGTH_FIXED + string_value.length
    else StrucLength0
  { type' := decU32 big buff 0, StrucLength := StrucLength,
    Parameter := decU32 big buff 8, CodedCharSetId := decU32 big buff 12,
    StringLength := StringLength, String := string_value,
    strFmts := [StringLength] }

/-- The `CFIL` integer-list structure (`mq_pcf.py` lines 312-391).
`integer_list` is the Python instance attribute of the same name and
`IntegerList` the dynamic payload field (raw bytes). -/
structure CFIL where
  type' : Nat
  StrucLength : Nat
  Parameter : Nat
  Count : Nat
  IntegerList : List Byte
  integer_list : List Nat
deriving DecidableEq

/-- `CFIL()` defaults. -/
def CFIL.init : CFIL :=
  { type' := MQCFT_INTEGER_LIST, StrucLength := MQCFIL_STRUC_LENGTH_FIXED,
    Parameter := 0, Count := 0, IntegerList := [], integer_list := [] }

/-- Pack a list of integers contiguously, 4 bytes each
(`struct.pack("i"*n, ...)`). -/
def packInts (big : Bool) (l : List Nat) : List Byte :=
  l.flatMap (encU32 big)

/-- `CFIL.add_integer(value, encoding)` (`mq_pcf.py` lines 330-361): append
the integer, bump `Count`, recompute `StrucLength = 16 + 4*Count`, and repack
the whole payload - big-endian when the requested encoding is big-endian (the
structure's own format string is unmodified on the freshly built structures
used by `pack_bag`, so the `startswith(">")` guard is false). -/
def CFIL.add_integer (c : CFIL) (value : Nat) (encoding : Option Nat) : CFIL :=
  let integer_list := c.integer_list ++ [value]
  let Count := c.Count + 1
  let StrucLength := MQCFIL_STRUC_LENGTH_FIXED + 4 * Count
  let string_value := packInts (isBigEnc encoding) integer_list
  { c with integer_list := integer_list, Count := Count,
           StrucLength := StrucLength, IntegerList := string_value }

/-- `CFIL.pack(encoding)`: four fixed fields then the raw payload (its format
is `"%is" % len(payload)`, the identity). -/
def CFIL.pack (encoding : Option Nat) (c : CFIL) : List Byte :=
  let big := isBigEnc encoding
  encU32 big c.type' ++ encU32 big c.StrucLength ++ encU32 big c.Parameter ++
  encU32 big c.Count ++ c.IntegerList

/-- Decode `count` native-order (little-endian) 4-byte integers from the front
of a payload, failing with `struct.error` when fewer than 4 bytes remain -
`struct.unpack(MQLONG_TYPE, int_buf[:4])` in `CFIL.unpack` is strict. -/
def unpackInts : Nat → List Byte → Except PyErr (List Nat)
  | 0, _ => .ok []
  | n + 1, buf =>
    if buf.length < 4 then .error .structError
    else
      match unpackInts n (buf.drop 4) with
      | .error e => .error e
      | .ok l => .ok (decU32 false (buf.take 4) 0 :: l)

/-- `CFIL.unpack(buff, encoding)` (`mq_pcf.py` lines 363-389): fixed fields
from `buff[:16]`, payload is the whole remainder; the `StrucLength` fixup
compares against `MQCFST_STRUC_LENGTH_FIXED` (20, a slip kept as in the
source); `integer_list` is rebuilt by `Count` strict native-order reads. -/
def CFIL.unpack (encoding : Option Nat) (buff : List Byte) :
    Except PyErr CFIL :=
  let big := isBigEnc encoding
  let string_value := buff.drop MQCFIL_STRUC_LENGTH_FIXED
  let Count := decU32 big buff 12
  let StrucLength0 := decU32 big buff 4
  let StrucLength :=
    if StrucLength0 = MQCFST_STRUC_LENGTH_FIXED ∨ StrucLength0 = 0 then
      MQCFST_STRUC_LENGTH_FIXED + string_value.length
    else StrucLength0
  match unpackInts Count string_value with
  | .error e => .error e
  | .ok ints =>
    .ok { type' := decU32 big buff 0, StrucLength := StrucLength,
          Parameter := decU32 big buff 8, Count := Count,
          IntegerList := string_value, integer_list := ints }

/-- The `CFSL` string-list structure (`mq_pcf.py` lines 505-587).  Each
`string_list` entry carries whether the Python value was `bytes` (as opposed
to `str`), which decides the `TypeError` behaviour of `add_string`. -/
structure CFSL where
  type' : Nat
  StrucLength : Nat
  Parameter : Nat
  CodedCharSetId : Nat
  Count : Nat
  StringLength : Nat
  StringList : List Byte
  string_list : List (Bool × List Byte)
  strFmtLen : Nat
deriving DecidableEq

/-- `CFSL()` defaults. -/
def CFSL.init : CFSL :=
  { type' := MQCFT_STRING_LIST, StrucLength := MQCFSL_STRUC_LENGTH_FIXED,
    Parameter := 0, CodedCharSetId := MQCCSI_DEFAULT, Count := 0,
    StringLength := 0, StringList := [], string_list := [], strFmtLen := 0 }

/-- Rebuild the `CFSL` payload by concatenating the accumulated values
(`mq_pcf.py` lines 537-544).  The padding branch evaluates
`s + " " * StringLength - len(s)` and the truncation branch indexes with
`"StringLength" - 1`; both raise `TypeError`, as does concatenating a `bytes`
value onto the `str` accumulator, so only `str` values of exactly
`StringLength` bytes survive. -/
def cfslConcat (stringLength : Nat) : List (Bool × List Byte) →
    Except PyErr (List Byte)
  | [] => .ok []
  | (isBytes, s) :: rest =>
    if s.length < stringLength then .error .typeError
    else if stringLength < s.length then .error .typeError
    else if isBytes then .error .typeError
    else
      match cfslConcat stringLength rest with
      | .error e => .error e
      | .ok tail => .ok (s ++ tail)

/-- `CFSL.add_string(value)` (`mq_pcf.py` lines 526-557): append the value,
set `StringLength` from the first value, bump `Count`, set
`StrucLength = 24 + StringLength*Count`, then rebuild the payload (which can
raise `TypeError`, see `cfslConcat`). -/
def CFSL.add_string (c : CFSL) (isBytes : Bool) (value : List Byte) :
    Except PyErr CFSL :=
  let string_list := c.string_list ++ [(isBytes, value)]
  let StringLength :=
    if c.StringLength = 0 then value.length else c.StringLength
  let Count := c.Count + 1
  let StrucLength := MQCFSL_STRUC_LENGTH_FIXED + StringLength * Count
  match cfslConcat StringLength string_list with
  | .error e => .error e
  | .ok string_value =>
    .ok { c with string_list := string_list, StringLength := StringLength,
                 Count := Count, StrucLength := StrucLength,
                 StringList := string_value,
                 strFmtLen := string_value.length }

/-- `CFSL.pack(encoding)`: six fixed fields then the `StringList` slot.
Under Python 3 `struct.pack` rejects a `str` value in an `s` slot with
`struct.error`; the slot's value is a `str` exactly when `add_string` rebuilt
it (its accumulator starts as `""`), i.e. when `string_list` is non-empty,
whereas a decoded structure holds wire `bytes` and a fresh one has no slot. -/
def CFSL.pack (encoding : Option Nat) (c : CFSL) : Except PyErr (List Byte) :=
  if c.string_list ≠ [] then .error .structError
  else
    let big := isBigEnc encoding
    .ok (encU32 big c.type' ++ encU32 big c.StrucLength ++
      encU32 big c.Parameter ++ encU32 big c.CodedCharSetId ++
      encU32 big c.Count ++ encU32 big c.StringLength ++
      sfmt c.strFmtLen c.StringList)

/-- `CFSL.unpack(buff, encoding)` (`mq_pcf.py` lines 560-585): fixed fields
from `buff[:24]`; when the declared `StringLength` is non-zero the payload
slice is `buff[24:24+StringLength]` - only one slot, regardless of `Count`
(kept as in the source); `StrucLength` fixup as for `CFST`. -/
def CFSL.unpack (encoding : Option Nat) (buff : List Byte) : CFSL :=
  let big := isBigEnc encoding
  let StringLength0 := decU32 big buff 20
  let sv0 := buff.drop MQCFSL_STRUC_LENGTH_FIXED
  let StringLength := if StringLength0 = 0 then sv0.length else StringLength0
  let string_value := if StringLength0 = 0 then sv0 else sv0.take StringLength0
  let StrucLength0 := decU32 big buff 4
  let StrucLength :=
    if StrucLength0 = MQCFSL_STRUC_LENGTH_FIXED ∨ StrucLength0 = 0 then
      MQCFSL_STRUC_LENGTH_FIXED + string_value.length
    else StrucLength0
  { type' := decU32 big buff 0, StrucLength := StrucLength,
    Parameter := decU32 big buff 8, CodedCharSetId := decU32 big buff 12,
    Count := decU32 big buff 16, StringLength := StringLength,
    StringList := string_value, string_list := [],
    strFmtLen := StringLength }

/-- The `CFBS` byte-string structure (`mq_pcf.py` lines 199-240). -/
structure CFBS where
  type' : Nat
  StrucLength : Nat
  Parameter : Nat
  StringLength : Nat
  String : List Byte
  strFmtLen : Nat
deriving DecidableEq

/-- `CFBS()` defaults. -/
def CFBS.init : CFBS :=
  { type' := MQCFT_BYTE_STRING, StrucLength := MQCFBS_STRUC_LENGTH_FIXED,
    Parameter := 0, StringLength := 0, String := [], strFmtLen := 0 }

/-- `CFBS.pack(encoding)`. -/
def CFBS.pack (encoding : Option Nat) (c : CFBS) : List Byte :=
  let big := isBigEnc encoding
  encU32 big c.type' ++ encU32 big c.StrucLength ++ encU32 big c.Parameter ++
  encU32 big c.StringLength ++ sfmt c.strFmtLen c.String

/-- `CFBS.unpack(buff, encoding)` (`mq_pcf.py` lines 215-239): fixed fields
from `buff[:16]`; a zero declared `StringLength` is replaced by the residual
length, otherwise the payload is sliced to it; `StrucLength` is recomputed
unconditionally as `16 + len(payload)`. -/
def CFBS.unpack (encoding : Option Nat) (buff : List Byte) : CFBS :=
  let big := isBigEnc encoding
  let StringLength0 := decU32 big buff 12
  let sv0 := buff.drop MQCFBS_STRUC_LENGTH_FIXED
  let StringLength := if StringLength0 = 0 then sv0.length else StringLength0
  let string_value := if StringLength0 = 0 then sv0 else sv0.take StringLength0
  { type' := decU32 big buff 0,
    StrucLength := MQCFBS_STRUC_LENGTH_FIXED + string_value.length,
    Parameter := decU32 big buff 8, StringLength := StringLength,
    String := string_value, strFmtLen := string_value.length }

/-- One decoded PCF structure, as appended to `pcf_structs` by
`PCFCommand.unpack_bag`. -/
inductive PCFStruct where
  | hdr (c : CFH)
  | pin (c : CFIN)
  | pst (c : CFST)
  | pil (c : CFIL)
  | psl (c : CFSL)
  | pbs (c : CFBS)
deriving DecidableEq

/-- The `Type` field of a decoded structure (`pcf_st["Type"]`). -/
def PCFStruct.typeOf : PCFStruct → Nat
  | .hdr c => c.type'
  | .pin c => c.type'
  | .pst c => c.type'
  | .pil c => c.type'
  | .psl c => c.type'
  | .pbs c => c.type'

/-- The `Parameter` field where present (`pcf_st["Parameter"]`); a `CFH` has
none and reading it is a `KeyError`. -/
def PCFStruct.parameter? : PCFStruct → Option Nat
  | .hdr _ => none
  | .pin c => some c.Parameter
  | .pst c => some c.Parameter
  | .pil c => some c.Parameter
  | .psl c => some c.Parameter
  | .pbs c => some c.Parameter

/-- The `Control` field where present (`pcf_st["Control"]`); only a `CFH`
carries one. -/
def PCFStruct.controlField? : PCFStruct → Option Nat
  | .hdr c => some c.Control
  | _ => none

/-- A value stored in the per-bag parameter dict: an integer (`CFIN.Value`)
or a byte/char sequence (all other payloads). -/
inductive PCFVal where
  | num (n : Nat)
  | bs (b : List Byte)
deriving DecidableEq

/-- A Python dict keyed by parameter id, modelled as an insertion-ordered
association list. -/
abbrev PCFDict := List (Nat × PCFVal)

/-- Python dict lookup: first (and only) binding of the key. -/
def pyLookup (d : PCFDict) (k : Nat) : Option PCFVal :=
  match d with
  | [] => none
  | (k', v) :: rest => if k' = k then some v else pyLookup rest k

/-- Python dict assignment `d[k] = v`: overwrite the existing binding in
place, else append. -/
def pyInsert (d : PCFDict) (k : Nat) (v : PCFVal) : PCFDict :=
  match d with
  | [] => [(k, v)]
  | (k', v') :: rest =>
    if k' = k then (k', v) :: rest else (k', v') :: pyInsert rest k v

/-- Decode one parameter structure from the slice `new_buff[:struc_len]`,
given its type tag: the dispatch arms of the `while` loop in
`PCFCommand.unpack_bag` (`mq_pcf.py` lines 954-993), including the
decode-side text conversion and its length check for `CFST`/`CFSL`.
`conv` is the character decoding `bytes.decode(self.ccsid_str)`. -/
def unpackStep (encoding : Option Nat) (conv : List Byte → List Byte)
    (convert : Bool) (t : Nat) (chunk : List Byte) : Except PyErr PCFStruct :=
  if t = MQCFT_INTEGER then
    match CFIN.unpack encoding chunk with
    | .error e => .error e
    | .ok r => .ok (.pin r)
  else if t = MQCFT_STRING then
    let r := CFST.unpack encoding chunk
    if convert then
      let s := conv r.String
      if s.length ≠ r.StringLength then
        .error (.transcodeMismatch s.length r.StringLength)
      else .ok (.pst { r with String := s })
    else .ok (.pst r)
  else if t = MQCFT_INTEGER_LIST then
    match CFIL.unpack encoding chunk with
    | .error e => .error e
    | .ok r => .ok (.pil r)
  else if t = MQCFT_STRING_LIST then
    let r := CFSL.unpack encoding chunk
    if convert then
      let s := conv r.StringList
      if s.length ≠ r.StringLength * r.Count then
        .error (.transcodeMismatch s.length (r.StringLength * r.Count))
      else .ok (.psl { r with StringList := s })
    else .ok (.psl r)
  else if t = MQCFT_BYTE_STRING then
    .ok (.pbs (CFBS.unpack encoding chunk))
  else .error (.unsupportedType t)

/-- Outcome of the parameter-scanning loop.  `diverge` marks fuel exhaustion;
the loop is run with fuel equal to the buffer length, which only runs out when
a zero `StrucLength` stops the cursor advancing - the Python loop then never
terminates. -/
inductive LoopOut where
  | diverge
  | err (e : PyErr)
  | structs (l : List PCFStruct)
deriving DecidableEq

/-- The `while not done` loop of `PCFCommand.unpack_bag` (`mq_pcf.py` lines
946-998): while bytes remain, read the type tag and `StrucLength` (4 strict
bytes each, in the active byte order), decode the slice `new_buff[:struc_len]`
via `unpackStep`, and advance the cursor by `struc_len`. -/
def unpack_loop (encoding : Option Nat) (conv : List Byte → List Byte)
    (convert : Bool) : Nat → List Byte → LoopOut
  | fuel, new_buff =>
    if new_buff = [] then .structs []
    else
      match fuel with
      | 0 => .diverge
      | fuel + 1 =>
        if new_buff.length < 4 then .err .structError
        else if new_buff.length < 8 then .err .structError
        else
          let big := isBigEnc encoding
          let parm_type := decU32 big new_buff 0
          let struc_len := decU32 big new_buff 4
          match unpackStep encoding conv convert parm_type
              (new_buff.take struc_len) with
          | .error e => .err e
          | .ok s =>
            match unpack_loop encoding conv convert fuel
                (new_buff.drop struc_len) with
            | .structs l => .structs (s :: l)
            | o => o

/-- Outcome of `PCFCommand.unpack_bag`: the Python `None` return for an
absent/empty buffer, an exception, divergence of the scan loop, or the
decoded structure list. -/
inductive BagOut where
  | noBag
  | diverge
  | err (e : PyErr)
  | structs (l : List PCFStruct)
deriving DecidableEq

/-- `PCFCommand.unpack_bag(buff, convert)` (`mq_pcf.py` lines 923-1000):
`None` in, `None` out (likewise for an empty buffer); otherwise decode the
36-byte `CFH` and scan the remainder.  The loop's fuel is the residual
length: with every declared `StrucLength` positive the cursor strictly
advances and the fuel suffices, and `diverge` models the loop that never
terminates. -/
def unpack_bag (encoding : Option Nat) (conv : List Byte → List Byte)
    (convert : Bool) (buff : Option (List Byte)) : BagOut :=
  match buff with
  | none => .noBag
  | some b =>
    if b = [] then .noBag
    else
      let resp_cfh := CFH.unpack encoding (b.take 36)
      let rest := b.drop 36
      match unpack_loop encoding conv convert rest.length rest with
      | .structs l => .structs (.hdr resp_cfh :: l)
      | .err e => .err e
      | .diverge => .diverge

/-- A parameter value as supplied to `PCFCommand.pack_bag`.  `str` carries
whether the Python value is `bytes` rather than `str`; `listOther` and
`other` stand for values of any unsupported Python type (the code inspects
only the first element of a list). -/
inductive ParmVal where
  | int (n : Nat)
  | str (isBytes : Bool) (s : List Byte)
  | intList (l : List Nat)
  | strList (l : List (Bool × List Byte))
  | listOther
  | other
deriving DecidableEq

/-- One entry of the `parm_list` argument of `PCFCommand.pack_bag`: a Python
dict (insertion-ordered pairs), a tuple `(parm, parm_vals)`, an empty tuple,
an `MQOpts` instance, or any other object. -/
inductive Directive where
  | dictD (entries : List (Nat × ParmVal))
  | tupD (parm : Nat) (v : ParmVal)
  | tupEmpty
  | mqoptsD
  | otherD
deriving DecidableEq

/-- Build and pack the parameter structure for one id/value pair: the shape
dispatch shared by the dict and tuple arms of `pack_bag` (`mq_pcf.py` lines
817-867 and 877-911).  `viaDict` selects the dict arm, the only one that
transcodes string values when `convert` is set (`value.encode(ccsid_str)`,
an `AttributeError` on a `bytes` value); `sencode` models that encoding.
An empty list leaves `cf_p = None` and the subsequent `cf_p.pack` is an
`AttributeError`. -/
def buildParm (encoding : Option Nat) (ccsid : Nat) (convert : Bool)
    (sencode : List Byte → List Byte) (viaDict : Bool) (parm : Nat) :
    ParmVal → Except PyErr (List Byte)
  | .intList l =>
    if l = [] then .error .attributeNone
    else
      let cf_p := l.foldl (fun c p => c.add_integer p encoding)
        { CFIL.init with Parameter := parm }
      .ok (cf_p.pack encoding)
  | .strList l =>
    if l = [] then .error .attributeNone
    else
      let cf_p0 : CFSL :=
        { CFSL.init with CodedCharSetId := ccsid, Parameter := parm }
      let step := fun (c : Except PyErr CFSL) (p : Bool × List Byte) =>
        match c with
        | .error e => .error e
        | .ok c =>
          if viaDict ∧ convert then
            if p.1 then .error .attributeEncode
            else c.add_string true (sencode p.2)
          else c.add_string p.1 p.2
      match l.foldl step (.ok cf_p0) with
      | .error e => .error e
      | .ok cf_p => cf_p.pack encoding
  | .int n =>
    let cf_p := { CFIN.init with Parameter := parm, Value := n }
    .ok (cf_p.pack encoding)
  | .str isBytes s =>
    let cf_p0 : CFST :=
      { CFST.init with CodedCharSetId := ccsid, Parameter := parm }
    if viaDict ∧ convert then
      if isBytes then .error .attributeEncode
      else .ok ((cf_p0.set_string (sencode s)).pack encoding)
    else .ok ((cf_p0.set_string s).pack encoding)
  | .listOther => .error .unknownParamType
  | .other => .error .unknownParamType

/-- Process one `parm_list` entry of `pack_bag`: empty dicts and tuples raise
`PYIFError`; dict entries use only their first key/value pair; `MQOpts`
instances pass the `isinstance` check but contribute no bytes (the pack call
for them is commented out in the source); anything else raises. -/
def packDirective (encoding : Option Nat) (ccsid : Nat) (convert : Bool)
    (sencode : List Byte → List Byte) :
    Directive → Except PyErr (List Byte)
  | .dictD entries =>
    match entries with
    | [] => .error .emptyDirective
    | (parm, v) :: _ => buildParm encoding ccsid convert sencode true parm v
  | .tupEmpty => .error .emptyDirective
  | .tupD parm v => buildParm encoding ccsid convert sencode false parm v
  | .mqoptsD => .ok []
  | .otherD => .error .unknownDirective

/-- `PCFCommand.pack_bag(command, parm_list)` (`mq_pcf.py` lines 792-920):
pack a `CFH` request header (`Type = MQCFT_COMMAND_XR`, `Version = 3`,
`ParameterCount = len(parm_list)`) and append each directive's packed
parameter structure in order. -/
def pack_bag (encoding : Option Nat) (ccsid : Nat) (convert : Bool)
    (sencode : List Byte → List Byte) (command : Nat)
    (parm_list : List Directive) : Except PyErr (List Byte) :=
  let pcf_header : CFH :=
    { CFH.init with type' := MQCFT_COMMAND_XR, Command := command,
                    Version := MQCFH_VERSION_3,
                    ParameterCount := parm_list.length }
  let go := fun (acc : Except PyErr (List Byte)) (d : Directive) =>
    match acc with
    | .error e => .error e
    | .ok out_buf =>
      match packDirective encoding ccsid convert sencode d with
      | .error e => .error e
      | .ok bytes => .ok (out_buf ++ bytes)
  parm_list.foldl go (.ok (pcf_header.pack encoding))

/-- The structure types `PCFCommandResponse.__init__` treats as headers
(`MQCFT_RESPONSE`, `MQCFT_XR_ITEM`, `MQCFT_XR_MSG`, `MQCFT_XR_SUMMARY`). -/
def isHeaderType (t : Nat) : Bool :=
  t = MQCFT_RESPONSE ∨ t = MQCFT_XR_ITEM ∨ t = MQCFT_XR_MSG ∨
  t = MQCFT_XR_SUMMARY

/-- The dict contribution of one non-header structure in
`PCFCommandResponse.__init__` (`mq_pcf.py` lines 611-623): the key is
`pcf_st["Parameter"]`, the value the payload field selected by
`pcf_st["Type"]`; an unknown type raises `PYIFError`, a missing field is a
`KeyError`. -/
def dict_step (s : PCFStruct) : Except PyErr (Nat × PCFVal) :=
  let t := s.typeOf
  if t = MQCFT_INTEGER then
    match s with
    | .pin c => .ok (c.Parameter, .num c.Value)
    | _ => .error .keyError
  else if t = MQCFT_STRING then
    match s with
    | .pst c => .ok (c.Parameter, .bs c.String)
    | .pbs c => .ok (c.Parameter, .bs c.String)
    | _ => .error .keyError
  else if t = MQCFT_INTEGER_LIST then
    match s with
    | .pil c => .ok (c.Parameter, .bs c.IntegerList)
    | _ => .error .keyError
  else if t = MQCFT_STRING_LIST then
    match s with
    | .psl c => .ok (c.Parameter, .bs c.StringList)
    | _ => .error .keyError
  else if t = MQCFT_BYTE_STRING then
    match s with
    | .pbs c => .ok (c.Parameter, .bs c.String)
    | .pst c => .ok (c.Parameter, .bs c.String)
    | _ => .error .keyError
  else .error (.unsupportedType t)

/-- The classification state threaded across bags by
`PCFCommandResponse.__init__`: the accumulated header list and the canonical
(first) header. -/
structure RespState where
  headers : List PCFStruct
  header : Option PCFStruct
deriving DecidableEq

/-- The initial classification state (`_headers = []`, `_header = None`). -/
def RespState.empty : RespState := { headers := [], header := none }

/-- The inner `for pcf_st in pcf_s` loop of `PCFCommandResponse.__init__`
(`mq_pcf.py` lines 603-623): header-typed structures are appended to the
header list (the first one becoming canonical) and a summary header breaks
out of the bag; every other structure contributes to the bag's dict. -/
def process_bag (bag : List PCFStruct) (st : RespState) (d : PCFDict) :
    Except PyErr (RespState × PCFDict) :=
  match bag with
  | [] => .ok (st, d)
  | s :: rest =>
    let t := s.typeOf
    if isHeaderType t then
      let st' : RespState :=
        { headers := st.headers ++ [s],
          header := match st.header with | none => some s | h => h }
      if t = MQCFT_XR_SUMMARY then .ok (st', d)
      else process_bag rest st' d
    else
      match dict_step s with
      | .error e => .error e
      | .ok (k, v) => process_bag rest st (pyInsert d k v)

/-- The aggregate built by `PCFCommandResponse.__init__`: header list,
canonical header, and one parameter dict per bag that produced one. -/
structure PCFResponse where
  headers : List PCFStruct
  header : Option PCFStruct
  parms : List PCFDict
deriving DecidableEq

/-- The outer `for pcf_s in struct_list` loop: classify each bag from the
running state and keep its dict when non-empty. -/
def response_go (bags : List (List PCFStruct)) (st : RespState)
    (parms : List PCFDict) : Except PyErr (RespState × List PCFDict) :=
  match bags with
  | [] => .ok (st, parms)
  | bag :: rest =>
    match process_bag bag st [] with
    | .error e => .error e
    | .ok (st', d) =>
      response_go rest st' (if d = [] then parms else parms ++ [d])

/-- `PCFCommandResponse(struct_list)` (`mq_pcf.py` lines 594-627): an empty
structure list raises `PYIFError`; otherwise every bag is classified in
order. -/
def PCFCommandResponse_init (struct_list : List (List PCFStruct)) :
    Except PyErr PCFResponse :=
  if struct_list = [] then .error .emptyStructList
  else
    match response_go struct_list RespState.empty [] with
    | .error e => .error e
    | .ok (st, parms) =>
      .ok { headers := st.headers, header := st.header, parms := parms }

/-- One interaction of the receive loop of `PCFCommand.execute_command` with
the transport: either a message arrives (with the sender's
`CodedCharSetId`), or `dyn_queue.get` raises `MQMIError` with a reason
code. -/
inductive TransportEvent where
  | msg (ccsid : Nat) (data : List Byte)
  | merr (reason : Nat)
deriving DecidableEq

/-- Classification of one received event by the loop body of
`execute_command` (`mq_pcf.py` lines 1048-1069). -/
inductive EvClass where
  /-- a decoded reply bag together with `rep_structs[0]["Control"]`. -/
  | bagC (l : List PCFStruct) (ctl : Nat)
  /-- `MQMIError` with reason 2033 (no message available). -/
  | timeoutC
  /-- `MQMIError` with any other reason. -/
  | errC (reason : Nat)
  /-- an exception escaping the body (decode failure, `None` subscript...). -/
  | failC (e : PyErr)
  /-- the decode loop of this message never terminates. -/
  | divergeC
deriving DecidableEq

/-- Classify one transport event as the loop body does: a message is decoded
with `unpack_bag`, without text conversion when the sender's character set
differs from the configured one; then `rep_structs[0]["Control"]` is read. -/
def event_class (ccsid : Nat) (encoding : Option Nat)
    (conv : List Byte → List Byte) (convert : Bool) :
    TransportEvent → EvClass
  | .merr r => if r = 2033 then .timeoutC else .errC r
  | .msg c data =>
    match unpack_bag encoding conv (if c ≠ ccsid then false else convert)
        (some data) with
    | .noBag => .failC .noneIndexError
    | .err e => .failC e
    | .diverge => .divergeC
    | .structs [] => .failC .noneIndexError
    | .structs (s :: l) =>
      match s.controlField? with
      | none => .failC .keyError
      | some ctl => .bagC (s :: l) ctl

/-- Outcome of the receive loop: the accumulated reply bags, a propagated
exception, a non-terminating decode, or `blocked` when the supplied event
trace ends while the loop is still waiting on the transport. -/
inductive ExecOut where
  | ok (bags : List (List PCFStruct))
  | err (e : PyErr)
  | diverge
  | blocked
deriving DecidableEq

/-- The `while not done` receive loop of `PCFCommand.execute_command`
(`mq_pcf.py` lines 1045-1069), applied to the sequence of events the
transport delivers: a bag is always recorded (also when its `Control` is
`MQCFC_LAST`, which additionally ends the loop); reason 2033 ends the loop
normally with the bags accumulated so far; any other `MQMIError` is
re-raised. -/
def execute_loop (ccsid : Nat) (encoding : Option Nat)
    (conv : List Byte → List Byte) (convert : Bool) :
    List TransportEvent → ExecOut
  | [] => .blocked
  | ev :: rest =>
    match event_class ccsid encoding conv convert ev with
    | .timeoutC => .ok []
    | .errC r => .err (.mqmi r)
    | .failC e => .err e
    | .divergeC => .diverge
    | .bagC l ctl =>
      if ctl = MQCFC_LAST then .ok [l]
      else
        match execute_loop ccsid encoding conv convert rest with
        | .ok bs => .ok (l :: bs)
        | o => o

/-! ### General lemmas about the scan loop -/

/-- One-step unfolding of `unpack_loop` at fuel zero. -/
theorem unpack_loop_zero (e : Option Nat) (c : List Byte → List Byte)
    (cv : Bool) (b : List Byte) :
    unpack_loop e c cv 0 b = if b = [] then .structs [] else .diverge := rfl

/-- One-step unfolding of `unpack_loop` at successor fuel. -/
theorem unpack_loop_succ (e : Option Nat) (c : List Byte → List Byte)
    (cv : Bool) (fuel : Nat) (b : List Byte) :
    unpack_loop e c cv (fuel + 1) b =
      (if b = [] then .structs []
       else if b.length < 4 then .err .structError
       else if b.length < 8 then .err .structError
       else
         match unpackStep e c cv (decU32 (isBigEnc e) b 0)
             (b.take (decU32 (isBigEnc e) b 4)) with
         | .error er => .err er
         | .ok s =>
           match unpack_loop e c cv fuel (b.drop (decU32 (isBigEnc e) b 4)) with
           | .structs l => .structs (s :: l)
           | o => o) := rfl

/-- The loop accepts an exhausted buffer at any fuel. -/
theorem unpack_loop_nil (e : Option Nat) (c : List Byte → List Byte)
    (cv : Bool) (fuel : Nat) : unpack_loop e c cv fuel [] = .structs [] := by
  cases fuel <;> rfl

/-- Reading a 4-byte field that lies inside the first list of an append. -/
theorem decU32_append (big : Bool) (b c : List Byte) (off : Nat)
    (h : off + 4 ≤ b.length) :
    decU32 big (b ++ c) off = decU32 big b off := by
  unfold decU32 byteAt
  rw [List.getD_append _ _ _ _ (by omega), List.getD_append _ _ _ _ (by omega),
      List.getD_append _ _ _ _ (by omega), List.getD_append _ _ _ _ (by omega)]

/-- Extra fuel does not change a loop run that does not exhaust its fuel. -/
theorem unpack_loop_mono (e : Option Nat) (c : List Byte → List Byte)
    (cv : Bool) :
    ∀ (fuel : Nat) (b : List Byte), unpack_loop e c cv fuel b ≠ .diverge →
      ∀ f', fuel ≤ f' →
      unpack_loop e c cv f' b = unpack_loop e c cv fuel b := by
  intro fuel
  induction fuel with
  | zero =>
    intro b h f' _
    by_cases hb : b = []
    · subst hb; rw [unpack_loop_nil, unpack_loop_nil]
    · exact absurd (by rw [unpack_loop_zero, if_neg hb]) h
  | succ n ih =>
    intro b h f' hf
    obtain ⟨m, rfl⟩ : ∃ m, f' = m + 1 := ⟨f' - 1, by omega⟩
    by_cases hb : b = []
    · subst hb; rw [unpack_loop_nil, unpack_loop_nil]
    · by_cases h4 : b.length < 4
      · rw [unpack_loop_succ, if_neg hb, if_pos h4,
            unpack_loop_succ, if_neg hb, if_pos h4]
      · by_cases h8 : b.length < 8
        · rw [unpack_loop_succ, if_neg hb, if_neg h4, if_pos h8,
              unpack_loop_succ, if_neg hb, if_neg h4, if_pos h8]
        · rw [unpack_loop_succ, if_neg hb, if_neg h4, if_neg h8]
          rw [unpack_loop_succ, if_neg hb, if_neg h4, if_neg h8] at h ⊢
          cases hstep : unpackStep e c cv (decU32 (isBigEnc e) b 0)
              (b.take (decU32 (isBigEnc e) b 4)) with
          | error er => simp [hstep]
          | ok s =>
            simp only [hstep] at h ⊢
            cases hrec : unpack_loop e c cv n
                (b.drop (decU32 (isBigEnc e) b 4)) with
            | diverge => rw [hrec] at h; exact absurd rfl h
            | err er =>
              rw [ih _ (by rw [hrec]; intro hc; cases hc) m (by omega), hrec]
            | structs l =>
              rw [ih _ (by rw [hrec]; intro hc; cases hc) m (by omega), hrec]

/-- A run ending in an error is stable under extra fuel. -/
theorem unpack_loop_err_mono (e : Option Nat) (c : List Byte → List Byte)
    (cv : Bool) (fuel f' : Nat) (b : List Byte) (er : PyErr)
    (h : unpack_loop e c cv fuel b = .err er) (hf : fuel ≤ f') :
    unpack_loop e c cv f' b = .err er := by
  rw [unpack_loop_mono e c cv fuel b (by rw [h]; intro hc; cases hc) f' hf, h]

/-- A byte region that is a chain of well-formed parameter structures: at
every step the 8-byte tag/length prelude is present, the declared
`StrucLength` is positive and within the region, and the dispatched decode
succeeds. -/
inductive StepsOk (e : Option Nat) (c : List Byte → List Byte) (cv : Bool) :
    List Byte → Prop
  | nil : StepsOk e c cv []
  | cons (b : List Byte) (hne : b ≠ []) (h8 : 8 ≤ b.length)
      (hpos : 1 ≤ decU32 (isBigEnc e) b 4)
      (hle : decU32 (isBigEnc e) b 4 ≤ b.length)
      (s : PCFStruct)
      (hstep : unpackStep e c cv (decU32 (isBigEnc e) b 0)
        (b.take (decU32 (isBigEnc e) b 4)) = .ok s)
      (hrest : StepsOk e c cv (b.drop (decU32 (isBigEnc e) b 4))) :
      StepsOk e c cv b

/-- Scanning a well-formed chain followed by anything that makes the loop
fail reproduces the failure: the chain is consumed, then the error of the
remainder propagates. -/
theorem unpack_loop_append_err (e : Option Nat) (c : List Byte → List Byte)
    (cv : Bool) :
    ∀ pre, StepsOk e c cv pre → ∀ tail fuel er,
      unpack_loop e c cv fuel tail = .err er →
      unpack_loop e c cv (pre.length + fuel) (pre ++ tail) = .err er := by
  intro pre hp
  induction hp with
  | nil => intro tail fuel er h; simpa using h
  | cons b hne h8 hpos hle s hstep hrest ih =>
    intro tail fuel er h
    obtain ⟨m, hm⟩ : ∃ m, b.length + fuel = m + 1 := ⟨b.length + fuel - 1, by omega⟩
    rw [hm, unpack_loop_succ]
    rw [if_neg (by intro hc; exact hne (List.append_eq_nil.mp hc).1)]
    rw [if_neg (by rw [List.length_append]; omega)]
    rw [if_neg (by rw [List.length_append]; omega)]
    rw [decU32_append _ _ _ _ (by omega), decU32_append _ _ _ _ (by omega)]
    rw [List.take_append_of_le_length hle, hstep]
    rw [List.drop_append_of_le_length hle]
    have ihh := ih tail fuel er h
    have hmono := unpack_loop_mono e c cv ((b.drop (decU32 (isBigEnc e) b 4)).length + fuel)
      (b.drop (decU32 (isBigEnc e) b 4) ++ tail)
      (by rw [ihh]; intro hc; cases hc) m
      (by rw [List.length_drop]; omega)
    rw [hmono, ihh]

/-- Precondition of the termination claim: from this position every
structure declares a strictly positive `StrucLength`. -/
inductive PosSteps (big : Bool) : List Byte → Prop
  | nil : PosSteps big []
  | cons (b : List Byte) (hne : b ≠ []) (hpos : 0 < decU32 big b 4)
      (hrest : PosSteps big (b.drop (decU32 big b 4))) : PosSteps big b

/-- With every declared `StrucLength` positive, fuel equal to the buffer
length is enough: the loop cannot exhaust it. -/
theorem unpack_loop_no_diverge (e : Option Nat) (c : List Byte → List Byte)
    (cv : Bool) :
    ∀ b, PosSteps (isBigEnc e) b → ∀ fuel, b.length ≤ fuel →
      unpack_loop e c cv fuel b ≠ .diverge := by
  intro b hp
  induction hp with
  | nil => intro fuel _; rw [unpack_loop_nil]; intro hc; cases hc
  | cons b hne hpos hrest ih =>
    intro fuel hlen
    have hbl : 0 < b.length := List.length_pos.mpr hne
    obtain ⟨m, rfl⟩ : ∃ m, fuel = m + 1 := ⟨fuel - 1, by omega⟩
    rw [unpack_loop_succ, if_neg hne]
    by_cases h4 : b.length < 4
    · rw [if_pos h4]; intro hc; cases hc
    · rw [if_neg h4]
      by_cases h8 : b.length < 8
      · rw [if_pos h8]; intro hc; cases hc
      · rw [if_neg h8]
        cases hstep : unpackStep e c cv (decU32 (isBigEnc e) b 0)
            (b.take (decU32 (isBigEnc e) b 4)) with
        | error er => intro hc; cases hc
        | ok s =>
          have hdl : (b.drop (decU32 (isBigEnc e) b 4)).length ≤ m := by
            rw [List.length_drop]; omega
          have hnd := ih m hdl
          cases hrec : unpack_loop e c cv m
              (b.drop (decU32 (isBigEnc e) b 4)) with
          | diverge => exact absurd hrec hnd
          | err er => simp
          | structs l => simp

/-- A structure declaring `StrucLength = 0` (with a recognised tag) leaves
the cursor unmoved: the loop exhausts any fuel, i.e. never terminates. -/
theorem unpack_loop_diverge_zero (e : Option Nat) (c : List Byte → List Byte)
    (cv : Bool) (b : List Byte)
    (ht : decU32 (isBigEnc e) b 0 = MQCFT_INTEGER)
    (hl : decU32 (isBigEnc e) b 4 = 0) (h8 : 8 ≤ b.length) :
    ∀ fuel, unpack_loop e c cv fuel b = .diverge := by
  have hne : b ≠ [] := by intro hb; rw [hb] at h8; simp at h8
  intro fuel
  induction fuel with
  | zero => rw [unpack_loop_zero, if_neg hne]
  | succ n ih =>
    rw [unpack_loop_succ, if_neg hne, if_neg (by omega), if_neg (by omega),
        ht, hl, List.take_zero]
    have hstep : unpackStep e c cv MQCFT_INTEGER [] =
        .ok (.pin { type' := decU32 (isBigEnc e) [] 0, StrucLength := decU32 (isBigEnc e) [] 4, Parameter := decU32 (isBigEnc e) [] 8, Value := decU32 (isBigEnc e) [] 12 }) := rfl
    rw [hstep, List.drop_zero, ih]

/-! ### Dict and classification lemmas -/

/-- A Python dict is never empty after an assignment. -/
theorem pyInsert_ne_nil (d : PCFDict) (k : Nat) (v : PCFVal) :
    pyInsert d k v ≠ [] := by
  cases d with
  | nil => simp [pyInsert]
  | cons p rest => obtain ⟨k', v'⟩ := p; unfold pyInsert; split <;> simp

/-- Looking up the key just assigned yields the assigned value. -/
theorem pyLookup_insert_self (d : PCFDict) (k : Nat) (v : PCFVal) :
    pyLookup (pyInsert d k v) k = some v := by
  induction d with
  | nil => simp [pyInsert, pyLookup]
  | cons p rest ih =>
    obtain ⟨k', v'⟩ := p
    by_cases h : k' = k
    · simp [pyInsert, h, pyLookup]
    · simp [pyInsert, h, pyLookup, ih]

/-- Assigning a different key does not change a lookup. -/
theorem pyLookup_insert_ne (d : PCFDict) (k' k : Nat) (v : PCFVal)
    (h : k' ≠ k) : pyLookup (pyInsert d k' v) k = pyLookup d k := by
  induction d with
  | nil => simp [pyInsert, pyLookup, h]
  | cons p rest ih =>
    obtain ⟨k0, v0⟩ := p
    by_cases h0 : k0 = k'
    · subst h0; simp [pyInsert, pyLookup, h]
    · simp [pyInsert, h0, pyLookup, ih]

/-- The dict contribution of one structure, as folded over a bag by
`process_bag` in its non-header branch. -/
def dict_fold_step (d : PCFDict) (s : PCFStruct) : PCFDict :=
  match dict_step s with
  | .ok (k, v) => pyInsert d k v
  | .error _ => d

/-- Unfolding `process_bag` on a parameter structure. -/
theorem process_bag_cons_param (s : PCFStruct) (rest : List PCFStruct)
    (st : RespState) (d : PCFDict) (hh : isHeaderType s.typeOf = false)
    (k : Nat) (v : PCFVal) (hds : dict_step s = .ok (k, v)) :
    process_bag (s :: rest) st d = process_bag rest st (pyInsert d k v) := by
  simp only [process_bag, hh, hds, Bool.false_eq_true, if_false]

/-- Unfolding `process_bag` on a structure whose dict step raises. -/
theorem process_bag_cons_step_err (s : PCFStruct) (rest : List PCFStruct)
    (st : RespState) (d : PCFDict) (hh : isHeaderType s.typeOf = false)
    (e : PyErr) (hds : dict_step s = .error e) :
    process_bag (s :: rest) st d = .error e := by
  simp only [process_bag, hh, hds, Bool.false_eq_true, if_false]

/-- Unfolding `process_bag` on a non-summary header structure. -/
theorem process_bag_cons_hdr (s : PCFStruct) (rest : List PCFStruct)
    (st : RespState) (d : PCFDict) (hh : isHeaderType s.typeOf = true)
    (hns : s.typeOf ≠ MQCFT_XR_SUMMARY) :
    process_bag (s :: rest) st d =
      process_bag rest
        { headers := st.headers ++ [s],
          header := match st.header with | none => some s | h => h } d := by
  simp only [process_bag, hh, if_true, if_neg hns]

/-- Unfolding `process_bag` on a summary header: the rest of the bag is
skipped. -/
theorem process_bag_cons_summary (s : PCFStruct) (rest : List PCFStruct)
    (st : RespState) (d : PCFDict) (hs : s.typeOf = MQCFT_XR_SUMMARY) :
    process_bag (s :: rest) st d =
      .ok ({ headers := st.headers ++ [s],
             header := match st.header with | none => some s | h => h }, d) := by
  have hh : isHeaderType s.typeOf = true := by
    rw [hs]; rfl
  simp only [process_bag, hh, if_true, if_pos hs]

/-- On a bag of parameter structures whose dict steps all succeed,
`process_bag` returns the incoming state and folds the dict contributions in
wire order. -/
theorem process_bag_params (bag : List PCFStruct) (st : RespState) :
    ∀ d : PCFDict,
      (∀ s ∈ bag, isHeaderType s.typeOf = false ∧
        ∃ kv, dict_step s = .ok kv) →
      process_bag bag st d = .ok (st, bag.foldl dict_fold_step d) := by
  induction bag with
  | nil => intro d _; rfl
  | cons s rest ih =>
    intro d h
    obtain ⟨hh, kv, hkv⟩ := h s (by simp)
    obtain ⟨k, v⟩ := kv
    rw [process_bag_cons_param s rest st d hh k v hkv,
        ih _ (fun q hq => h q (by simp [hq])), List.foldl_cons]
    have : dict_fold_step d s = pyInsert d k v := by
      unfold dict_fold_step; rw [hkv]
    rw [this]

/-- Folding dict contributions never empties a non-empty dict. -/
theorem dict_fold_ne_nil :
    ∀ (bag : List PCFStruct) (d : PCFDict), d ≠ [] →
      bag.foldl dict_fold_step d ≠ [] := by
  intro bag
  induction bag with
  | nil => intro d h; simpa using h
  | cons s rest ih =>
    intro d h
    rw [List.foldl_cons]
    apply ih
    unfold dict_fold_step
    cases hds : dict_step s with
    | error e => exact h
    | ok kv => obtain ⟨k, v⟩ := kv; exact pyInsert_ne_nil d k v

/-- Folding contributions whose keys all differ from `P` preserves the
lookup of `P`. -/
theorem dict_fold_lookup_ne (P : Nat) :
    ∀ (bag : List PCFStruct) (d : PCFDict),
      (∀ q ∈ bag, ∀ k w, dict_step q = .ok (k, w) → k ≠ P) →
      pyLookup (bag.foldl dict_fold_step d) P = pyLookup d P := by
  intro bag
  induction bag with
  | nil => intro d _; rfl
  | cons s rest ih =>
    intro d h
    rw [List.foldl_cons, ih _ (fun q hq => h q (by simp [hq]))]
    unfold dict_fold_step
    cases hds : dict_step s with
    | error e => rfl
    | ok kv =>
      obtain ⟨k, w⟩ := kv
      exact pyLookup_insert_ne d k P w (h s (by simp) k w hds)

/-- A summary header ends the classification of a bag: everything after it
is ignored. -/
theorem process_bag_summary_stop :
    ∀ (pre : List PCFStruct) (x : PCFStruct) (post : List PCFStruct)
      (st : RespState) (d : PCFDict),
      x.typeOf = MQCFT_XR_SUMMARY →
      (∀ q ∈ pre, q.typeOf ≠ MQCFT_XR_SUMMARY) →
      process_bag (pre ++ x :: post) st d = process_bag (pre ++ [x]) st d := by
  intro pre
  induction pre with
  | nil =>
    intro x post st d hx _
    rw [List.nil_append, List.nil_append,
        process_bag_cons_summary x post st d hx,
        process_bag_cons_summary x [] st d hx]
  | cons q rest ih =>
    intro x post st d hx hpre
    have hq : q.typeOf ≠ MQCFT_XR_SUMMARY := hpre q (by simp)
    rw [List.cons_append, List.cons_append]
    by_cases hh : isHeaderType q.typeOf = true
    · rw [process_bag_cons_hdr q _ st d hh hq,
          process_bag_cons_hdr q _ st d hh hq,
          ih x post _ d hx (fun r hr => hpre r (by simp [hr]))]
    · rw [Bool.not_eq_true] at hh
      cases hds : dict_step q with
      | error e =>
        rw [process_bag_cons_step_err q _ st d hh e hds,
            process_bag_cons_step_err q _ st d hh e hds]
      | ok kv =>
        obtain ⟨k, v⟩ := kv
        rw [process_bag_cons_param q _ st d hh k v hds,
            process_bag_cons_param q _ st d hh k v hds,
            ih x post st _ hx (fun r hr => hpre r (by simp [hr]))]

/-! ### Lemmas about the receive loop -/

/-- One-step unfolding of `execute_loop`. -/
theorem execute_loop_cons (cc : Nat) (e : Option Nat)
    (conv : List Byte → List Byte) (cv : Bool) (ev : TransportEvent)
    (rest : List TransportEvent) :
    execute_loop cc e conv cv (ev :: rest) =
      (match event_class cc e conv cv ev with
       | .timeoutC => .ok []
       | .errC r => .err (.mqmi r)
       | .failC er => .err er
       | .divergeC => .diverge
       | .bagC l ctl =>
         if ctl = MQCFC_LAST then .ok [l]
         else
           match execute_loop cc e conv cv rest with
           | .ok bs => .ok (l :: bs)
           | o => o) := rfl

/-- A prefix of successfully decoded non-terminal bags only prepends its
bags (one per event) to whatever the rest of the run yields. -/
theorem execute_loop_prefix_ok (cc : Nat) (e : Option Nat)
    (conv : List Byte → List Byte) (cv : Bool) :
    ∀ pre : List TransportEvent,
      (∀ ev ∈ pre, ∃ l ctl, event_class cc e conv cv ev = .bagC l ctl ∧
        ctl ≠ MQCFC_LAST) →
      ∀ rest bs, execute_loop cc e conv cv rest = .ok bs →
      ∃ acc, execute_loop cc e conv cv (pre ++ rest) = .ok (acc ++ bs) ∧
        acc.length = pre.length := by
  intro pre
  induction pre with
  | nil => intro _ rest bs h; exact ⟨[], by simpa using h, rfl⟩
  | cons ev pre ih =>
    intro h rest bs hrest
    obtain ⟨l, ctl, hev, hctl⟩ := h ev (by simp)
    obtain ⟨acc, hacc, hlen⟩ := ih (fun x hx => h x (by simp [hx])) rest bs hrest
    refine ⟨l :: acc, ?_, by simp [hlen]⟩
    rw [List.cons_append, execute_loop_cons]
    simp only [hev]
    rw [if_neg hctl, hacc]
    rfl

/-- A prefix of successfully decoded non-terminal bags does not mask an
error of the rest of the run. -/
theorem execute_loop_prefix_err (cc : Nat) (e : Option Nat)
    (conv : List Byte → List Byte) (cv : Bool) :
    ∀ pre : List TransportEvent,
      (∀ ev ∈ pre, ∃ l ctl, event_class cc e conv cv ev = .bagC l ctl ∧
        ctl ≠ MQCFC_LAST) →
      ∀ rest er, execute_loop cc e conv cv rest = .err er →
      execute_loop cc e conv cv (pre ++ rest) = .err er := by
  intro pre
  induction pre with
  | nil => intro _ rest er h; simpa using h
  | cons ev pre ih =>
    intro h rest er hrest
    obtain ⟨l, ctl, hev, hctl⟩ := h ev (by simp)
    rw [List.cons_append, execute_loop_cons]
    simp only [hev]
    rw [if_neg hctl, ih (fun x hx => h x (by simp [hx])) rest er hrest]

/-! ### Helpers about buffers and the builders -/

/-- Unfolding `unpack_bag` on a non-empty buffer. -/
theorem unpack_bag_some (e : Option Nat) (conv : List Byte → List Byte)
    (cv : Bool) (b : List Byte) (hb : b ≠ []) :
    unpack_bag e conv cv (some b) =
      (match unpack_loop e conv cv (b.drop 36).length (b.drop 36) with
       | .structs l => .structs (.hdr (CFH.unpack e (b.take 36)) :: l)
       | .err er => .err er
       | .diverge => .diverge) := by
  simp only [unpack_bag, if_neg hb]

/-- Dropping a 36-byte header prefix. -/
theorem drop36_append (h36 r : List Byte) (h : h36.length = 36) :
    (h36 ++ r).drop 36 = r := by
  rw [List.drop_append_of_le_length (by omega)]
  have : h36.drop 36 = [] := by rw [← h]; exact List.drop_length h36
  rw [this, List.nil_append]

/-- Taking a 36-byte header prefix. -/
theorem take36_append (h36 r : List Byte) (h : h36.length = 36) :
    (h36 ++ r).take 36 = h36 := by
  rw [List.take_append_of_le_length (by omega), ← h]
  exact List.take_length h36

/-- Unfolding `response_go` on the first bag. -/
theorem response_go_cons (bag : List PCFStruct) (rest : List (List PCFStruct))
    (st : RespState) (parms : List PCFDict) :
    response_go (bag :: rest) st parms =
      (match process_bag bag st [] with
       | .error e => .error e
       | .ok (st', d) =>
         response_go rest st' (if d = [] then parms else parms ++ [d])) := rfl

/-- A non-empty bag of successfully classified parameters yields a non-empty
dict. -/
theorem dict_fold_ne_nil_of_ne_nil (bag : List PCFStruct)
    (h : ∀ s ∈ bag, ∃ kv, dict_step s = .ok kv) (hne : bag ≠ []) :
    bag.foldl dict_fold_step [] ≠ [] := by
  cases bag with
  | nil => exact absurd rfl hne
  | cons s rest =>
    rw [List.foldl_cons]
    apply dict_fold_ne_nil
    obtain ⟨kv, hkv⟩ := h s (by simp)
    obtain ⟨k, v⟩ := kv
    unfold dict_fold_step
    rw [hkv]
    exact pyInsert_ne_nil [] k v

/-- An encoded 4-byte field is 4 bytes long. -/
theorem encU32_length (big : Bool) (v : Nat) : (encU32 big v).length = 4 := by
  cases big <;> rfl

/-- An `Ns`-formatted slot always occupies exactly `n` bytes. -/
theorem sfmt_length (n : Nat) (s : List Byte) : (sfmt n s).length = n := by
  simp [sfmt]
  omega

/-- A packed integer list is 4 bytes per element. -/
theorem packInts_length (big : Bool) (l : List Nat) :
    (packInts big l).length = 4 * l.length := by
  induction l with
  | nil => rfl
  | cons v rest ih =>
    unfold packInts at ih ⊢
    rw [List.flatMap_cons, List.length_append, encU32_length, ih,
        List.length_cons]
    ring

/-- One `add_integer` call preserves the length bookkeeping of a `CFIL`. -/
theorem add_integer_inv (c : CFIL) (v : Nat) (encoding : Option Nat)
    (h : c.Count = c.integer_list.length) :
    (c.add_integer v encoding).Count = c.Count + 1 ∧
    (c.add_integer v encoding).integer_list.length =
      c.integer_list.length + 1 ∧
    (c.add_integer v encoding).StrucLength =
      MQCFIL_STRUC_LENGTH_FIXED + 4 * (c.add_integer v encoding).Count ∧
    (c.add_integer v encoding).IntegerList.length =
      4 * (c.add_integer v encoding).Count := by
  refine ⟨rfl, by simp [CFIL.add_integer], rfl, ?_⟩
  show (packInts (isBigEnc encoding) (c.integer_list ++ [v])).length = _
  rw [packInts_length, List.length_append]
  simp [CFIL.add_integer, h]

/-- Any chain of `add_integer` calls keeps
`StrucLength = 16 + 4 * Count` with a payload of `4 * Count` bytes. -/
theorem addIntegers_fold (encoding : Option Nat) :
    ∀ (vs : List Nat) (c : CFIL), c.Count = c.integer_list.length →
      c.StrucLength = MQCFIL_STRUC_LENGTH_FIXED + 4 * c.Count →
      c.IntegerList.length = 4 * c.Count →
      (vs.foldl (fun a p => a.add_integer p encoding) c).Count =
        c.Count + vs.length ∧
      (vs.foldl (fun a p => a.add_integer p encoding) c).StrucLength =
        MQCFIL_STRUC_LENGTH_FIXED +
          4 * (vs.foldl (fun a p => a.add_integer p encoding) c).Count ∧
      (vs.foldl (fun a p => a.add_integer p encoding) c).IntegerList.length =
        4 * (vs.foldl (fun a p => a.add_integer p encoding) c).Count := by
  intro vs
  induction vs with
  | nil => intro c _ h2 h3; exact ⟨by simp, h2, h3⟩
  | cons v rest ih =>
    intro c h1 h2 h3
    obtain ⟨ha, hb, hc', hd⟩ := add_integer_inv c v encoding h1
    have h1' : (c.add_integer v encoding).Count =
        (c.add_integer v encoding).integer_list.length := by omega
    obtain ⟨ra, rb, rc⟩ := ih (c.add_integer v encoding) h1' hc' hd
    rw [List.foldl_cons]
    exact ⟨by rw [ra, ha, List.length_cons]; ring, rb, rc⟩

/-! ### Claim theorems -/

/-- C1: the decode/encode roundtrip fails for the `CFSL` variant, already
under the native byte order.  Encoding never even produces bytes: a `bytes`
value crashes `add_string` on the `str` concatenation, and `str` values
survive `add_string` only to crash `CFSL.pack` (`struct.pack` rejects a
`str` payload).  Independently, decoding a well-formed two-slot wire
structure (`Count = 2`, `StringLength = 1`, payload `"AB"`) truncates
`StringList` to the single slot `"A"` - `CFSL.unpack` slices `StringLength`
bytes instead of `StringLength * Count` - so `decode(encode(x)) = x` cannot
hold for this variant. -/
theorem roundtrip_cfsl_failure :
    CFSL.init.add_string true [65] = .error .typeError ∧
    ((CFSL.init.add_string false [65]).bind
        (fun s => s.add_string false [66])).bind
      (fun s => s.pack none) = .error .structError ∧
    (CFSL.unpack none
        ([6, 0, 0, 0] ++ [26, 0, 0, 0] ++ [7, 0, 0, 0] ++ [0, 0, 0, 0] ++
          [2, 0, 0, 0] ++ [1, 0, 0, 0] ++ [65, 66])).StringList = [65] ∧
    (CFSL.unpack none
        ([6, 0, 0, 0] ++ [26, 0, 0, 0] ++ [7, 0, 0, 0] ++ [0, 0, 0, 0] ++
          [2, 0, 0, 0] ++ [1, 0, 0, 0] ++ [65, 66])).Count = 2 ∧
    (CFSL.unpack none
        ([6, 0, 0, 0] ++ [26, 0, 0, 0] ++ [7, 0, 0, 0] ++ [0, 0, 0, 0] ++
          [2, 0, 0, 0] ++ [1, 0, 0, 0] ++ [65, 66])).StringLength = 1 ∧
    ([65] : List Byte) ≠ [65, 66] :=
  ⟨rfl, rfl, rfl, rfl, rfl, by decide⟩

/-- C7: `CFSL.add_string` crashes instead of padding or truncating.  After a
first 5-byte value fixes the slot width, adding a shorter value hits the
malformed pad expression and a longer value the malformed truncate
expression - both `TypeError` - and a `bytes` value crashes on the `str`
concatenation. -/
theorem cfsl_add_string_type_error :
    ((CFSL.init.add_string false [72, 69, 76, 76, 79]).bind
        (fun s => s.add_string false [65, 66])) = .error .typeError ∧
    ((CFSL.init.add_string false [72, 69, 76, 76, 79]).bind
        (fun s => s.add_string false [65, 66, 67, 68, 69, 70, 71])) =
      .error .typeError ∧
    (CFSL.init.add_string true [72, 69, 76, 76, 79]) = .error .typeError :=
  ⟨rfl, rfl, rfl⟩

/-- C9: a directive with an empty list value does not raise the
invalid-parameter error - `cf_p` stays `None` and the subsequent
`cf_p.pack(...)` is an `AttributeError`, for the dict and the tuple form
alike. -/
theorem pack_bag_empty_list_crash :
    pack_bag none 0 false id 2 [Directive.dictD [(7, ParmVal.intList [])]] =
      .error .attributeNone ∧
    pack_bag none 0 false id 2 [Directive.tupD 7 (ParmVal.strList [])] =
      .error .attributeNone ∧
    PyErr.attributeNone ≠ PyErr.unknownParamType :=
  ⟨rfl, rfl, by decide⟩

/-- C2 counterexample: a second `set_string` on the same structure (bytes
values `b"HELLO"` then `b"AB"`) restores the old 5-byte string, keeps the
stale `StrucLength = 25`, and duplicates the payload slot (`"5s"` then
`"2s"`), so the packed structure is 27 bytes while declaring 25: after this
encode operation `StrucLength` (25) is not the fixed width (20) plus the 7
packed payload bytes.  And decode does not reject a mismatched
`StrucLength`: `unpack_bag` accepts a `CFST` declaring `StrucLength = 100`
around a 5-byte payload (`CFST.unpack` slices its regions itself and never
checks the declared length). -/
theorem struclength_counterexample :
    (((CFST.init.set_string [72, 69, 76, 76, 79]).set_string
        [65, 66]).StrucLength = 25 ∧
      ((CFST.init.set_string [72, 69, 76, 76, 79]).set_string
        [65, 66]).String = [72, 69, 76, 76, 79] ∧
      ((CFST.init.set_string [72, 69, 76, 76, 79]).set_string
        [65, 66]).StringLength = 2 ∧
      (((CFST.init.set_string [72, 69, 76, 76, 79]).set_string
        [65, 66]).pack none).length = 27 ∧
      (25 : Nat) ≠ 27) ∧
    (unpack_bag none id false
      (some (List.replicate 36 0 ++
        ([4, 0, 0, 0] ++ [100, 0, 0, 0] ++ [7, 0, 0, 0] ++ [0, 0, 0, 0] ++
          [5, 0, 0, 0] ++ [72, 69, 76, 76, 79]))) =
      .structs [.hdr (CFH.unpack none (List.replicate 36 0)),
        .pst { type' := 4, StrucLength := 100, Parameter := 7, CodedCharSetId := 0, StringLength := 5, String := [72, 69, 76, 76, 79], strFmts := [5] }] ∧
      (100 : Nat) ≠ MQCFST_STRUC_LENGTH_FIXED + 5) :=
  ⟨⟨rfl, rfl, rfl, rfl, by decide⟩, ⟨rfl, by decide⟩⟩

/-- C2 (amended): after the FIRST payload-setting call on a fresh `CFST`,
`StrucLength` equals the fixed width plus the payload length and the packed
bytes have exactly that length, and every `add_integer` chain on a fresh
`CFIL` maintains `StrucLength = 16 + 4 * Count` with a `4 * Count`-byte
payload; but a repeated `set_string` restores the old string, keeps the old
`StrucLength`, and appends a second payload slot (so the packed output
exceeds the declared length); and decode does not validate `StrucLength`
against the equation (a `CFST` declaring 100 around a 5-byte payload is
decoded without error). -/
theorem struclength_invariant_amended :
    (∀ (c : CFST) (v : List Byte), c.StrucLength = MQCFST_STRUC_LENGTH_FIXED →
      c.strFmts = [] →
      (c.set_string v).StrucLength = MQCFST_STRUC_LENGTH_FIXED + v.length ∧
      (c.set_string v).StringLength = v.length ∧
      (c.set_string v).String = v ∧
      (∀ encoding, ((c.set_string v).pack encoding).length =
        MQCFST_STRUC_LENGTH_FIXED + v.length)) ∧
    (∀ (c : CFST) (w : List Byte), c.StrucLength ≠ MQCFST_STRUC_LENGTH_FIXED →
      c.StrucLength ≠ 0 → c.strFmts ≠ [] →
      (c.set_string w).StrucLength = c.StrucLength ∧
      (c.set_string w).String = c.String ∧
      (c.set_string w).strFmts = c.strFmts ++ [w.length]) ∧
    (∀ (encoding : Option Nat) (vs : List Nat),
      (vs.foldl (fun a p => a.add_integer p encoding) CFIL.init).StrucLength =
        MQCFIL_STRUC_LENGTH_FIXED +
          4 * (vs.foldl (fun a p => a.add_integer p encoding) CFIL.init).Count ∧
      (vs.foldl (fun a p => a.add_integer p encoding)
          CFIL.init).IntegerList.length =
        4 * (vs.foldl (fun a p => a.add_integer p encoding) CFIL.init).Count ∧
      (vs.foldl (fun a p => a.add_integer p encoding) CFIL.init).Count =
        vs.length) ∧
    (unpack_bag none id false
      (some (List.replicate 36 0 ++
        ([4, 0, 0, 0] ++ [100, 0, 0, 0] ++ [7, 0, 0, 0] ++ [0, 0, 0, 0] ++
          [5, 0, 0, 0] ++ [72, 69, 76, 76, 79]))) =
      .structs [.hdr (CFH.unpack none (List.replicate 36 0)),
        .pst { type' := 4, StrucLength := 100, Parameter := 7, CodedCharSetId := 0, StringLength := 5, String := [72, 69, 76, 76, 79], strFmts := [5] }] ∧
      (100 : Nat) ≠ MQCFST_STRUC_LENGTH_FIXED + 5) := by
  refine ⟨?_, ?_, ?_, ⟨rfl, by decide⟩⟩
  · intro c v h h0
    refine ⟨by simp [CFST.set_string, h], by simp [CFST.set_string],
      by simp [CFST.set_string, h0], ?_⟩
    intro encoding
    simp [CFST.pack, CFST.set_string, h, h0, encU32_length, sfmt_length,
      MQCFST_STRUC_LENGTH_FIXED]
    omega
  · intro c w h1 h2 h3
    simp [CFST.set_string, h1, h2, h3]
  · intro encoding vs
    obtain ⟨ra, rb, rc⟩ := addIntegers_fold encoding vs CFIL.init rfl rfl rfl
    refine ⟨rb, rc, ?_⟩
    rw [ra]
    exact Nat.zero_add vs.length

/-- Witness for C2: the amended claim evaluated on a fresh structure (with
the packed length checked under a big-endian encoding), on a repeated
`set_string`, and on the integer chain `[1, 2, 3]`. -/
theorem struclength_invariant_amended_witness :
    ((CFST.init.set_string [65, 66]).StrucLength =
        MQCFST_STRUC_LENGTH_FIXED + ([65, 66] : List Byte).length ∧
      (CFST.init.set_string [65, 66]).StringLength =
        ([65, 66] : List Byte).length ∧
      (CFST.init.set_string [65, 66]).String = [65, 66] ∧
      ((CFST.init.set_string [65, 66]).pack (some 785)).length =
        MQCFST_STRUC_LENGTH_FIXED + ([65, 66] : List Byte).length) ∧
    (((CFST.init.set_string [72, 69, 76, 76, 79]).set_string
        [65, 66]).StrucLength =
      (CFST.init.set_string [72, 69, 76, 76, 79]).StrucLength ∧
      ((CFST.init.set_string [72, 69, 76, 76, 79]).set_string
        [65, 66]).String =
        (CFST.init.set_string [72, 69, 76, 76, 79]).String ∧
      ((CFST.init.set_string [72, 69, 76, 76, 79]).set_string
        [65, 66]).strFmts =
        (CFST.init.set_string [72, 69, 76, 76, 79]).strFmts ++
          [([65, 66] : List Byte).length]) ∧
    ((([1, 2, 3] : List Nat).foldl
        (fun a p => a.add_integer p (some 785)) CFIL.init).StrucLength =
      MQCFIL_STRUC_LENGTH_FIXED +
        4 * (([1, 2, 3] : List Nat).foldl
          (fun a p => a.add_integer p (some 785)) CFIL.init).Count ∧
      (([1, 2, 3] : List Nat).foldl
          (fun a p => a.add_integer p (some 785)) CFIL.init).IntegerList.length =
        4 * (([1, 2, 3] : List Nat).foldl
          (fun a p => a.add_integer p (some 785)) CFIL.init).Count ∧
      (([1, 2, 3] : List Nat).foldl
          (fun a p => a.add_integer p (some 785)) CFIL.init).Count =
        ([1, 2, 3] : List Nat).length) :=
  ⟨⟨(struclength_invariant_amended.1 CFST.init [65, 66] rfl rfl).1,
    (struclength_invariant_amended.1 CFST.init [65, 66] rfl rfl).2.1,
    (struclength_invariant_amended.1 CFST.init [65, 66] rfl rfl).2.2.1,
    (struclength_invariant_amended.1 CFST.init [65, 66] rfl rfl).2.2.2
      (some 785)⟩,
   struclength_invariant_amended.2.1
     (CFST.init.set_string [72, 69, 76, 76, 79]) [65, 66]
     (by decide) (by decide) (by decide),
   struclength_invariant_amended.2.2.1 (some 785) [1, 2, 3]⟩

/-- C10: the reply scan advances its cursor by each structure's declared
`StrucLength`, so `unpack_bag` terminates whenever every structure after the
header declares a strictly positive `StrucLength` (fuel equal to the residual
length never runs out); a structure declaring `StrucLength = 0` under a
recognised tag leaves the cursor unmoved and the loop never terminates
(modelled by fuel exhaustion at every fuel, i.e. the `diverge` outcome). -/
theorem unpack_bag_termination_zero_struclength :
    (∀ (encoding : Option Nat) (conv : List Byte → List Byte) (convert : Bool)
        (h36 b : List Byte), h36.length = 36 →
        PosSteps (isBigEnc encoding) b →
        unpack_bag encoding conv convert (some (h36 ++ b)) ≠ .diverge) ∧
    (∀ (encoding : Option Nat) (conv : List Byte → List Byte) (convert : Bool)
        (h36 b : List Byte), h36.length = 36 →
        decU32 (isBigEnc encoding) b 0 = MQCFT_INTEGER →
        decU32 (isBigEnc encoding) b 4 = 0 → 8 ≤ b.length →
        unpack_bag encoding conv convert (some (h36 ++ b)) = .diverge) := by
  constructor
  · intro encoding conv convert h36 b h36len hpos
    have hne : h36 ++ b ≠ [] := by
      intro hc; have := congrArg List.length hc; simp [h36len] at this
    rw [unpack_bag_some _ _ _ _ hne, drop36_append h36 b h36len]
    have hnd := unpack_loop_no_diverge encoding conv convert b hpos
      b.length le_rfl
    cases hres : unpack_loop encoding conv convert b.length b with
    | diverge => exact absurd hres hnd
    | err er => simp
    | structs l => simp
  · intro encoding conv convert h36 b h36len ht hl h8
    have hne : h36 ++ b ≠ [] := by
      intro hc; have := congrArg List.length hc; simp [h36len] at this
    rw [unpack_bag_some _ _ _ _ hne, drop36_append h36 b h36len,
        unpack_loop_diverge_zero encoding conv convert b ht hl h8 b.length]

/-- Witness for C10: a positive-length `CFIN` chunk scans without exhausting
the fuel, while the same chunk with `StrucLength = 0` diverges. -/
theorem unpack_bag_termination_zero_struclength_witness :
    unpack_bag none id false
      (some (List.replicate 36 0 ++ [3, 0, 0, 0, 8, 0, 0, 0])) ≠ .diverge ∧
    unpack_bag none id false
      (some (List.replicate 36 0 ++ [3, 0, 0, 0, 0, 0, 0, 0])) = .diverge :=
  ⟨unpack_bag_termination_zero_struclength.1 none id false
      (List.replicate 36 0) [3, 0, 0, 0, 8, 0, 0, 0] (by decide)
      (PosSteps.cons _ (by decide) (by decide) PosSteps.nil),
   unpack_bag_termination_zero_struclength.2 none id false
      (List.replicate 36 0) [3, 0, 0, 0, 0, 0, 0, 0] (by decide)
      (by decide) (by decide) (by decide)⟩

/-- C4: an unrecognised 4-byte type tag (read in the active byte order)
anywhere after the header aborts the decoding of the whole Bag with the
unsupported-structure-type error: any chain of well-formed structures before
it is discarded and nothing after it is decoded - the result carries no
structures at all. -/
theorem unpack_bag_unknown_tag_aborts :
    ∀ (encoding : Option Nat) (conv : List Byte → List Byte) (convert : Bool)
      (h36 pre c : List Byte) (t : Nat),
      h36.length = 36 → StepsOk encoding conv convert pre →
      8 ≤ c.length → decU32 (isBigEnc encoding) c 0 = t →
      t ≠ MQCFT_INTEGER → t ≠ MQCFT_STRING → t ≠ MQCFT_INTEGER_LIST →
      t ≠ MQCFT_STRING_LIST → t ≠ MQCFT_BYTE_STRING →
      unpack_bag encoding conv convert (some (h36 ++ (pre ++ c))) =
        .err (.unsupportedType t) := by
  intro encoding conv convert h36 pre c t h36len hpre h8 htag h3 h4 h5 h6 h9
  have hne : h36 ++ (pre ++ c) ≠ [] := by
    intro hc; have := congrArg List.length hc; simp [h36len] at this
  rw [unpack_bag_some _ _ _ _ hne, drop36_append _ _ h36len]
  have hcl : unpack_loop encoding conv convert c.length c =
      .err (.unsupportedType t) := by
    obtain ⟨m, hm⟩ : ∃ m, c.length = m + 1 := ⟨c.length - 1, by omega⟩
    have hcne : c ≠ [] := by intro hc0; rw [hc0] at h8; simp at h8
    rw [hm, unpack_loop_succ, if_neg hcne, if_neg (by omega), if_neg (by omega),
        htag]
    have hstep : unpackStep encoding conv convert t
        (c.take (decU32 (isBigEnc encoding) c 4)) =
        .error (.unsupportedType t) := by
      unfold unpackStep
      rw [if_neg h3, if_neg h4, if_neg h5, if_neg h6, if_neg h9]
    rw [hstep]
  have happ := unpack_loop_append_err encoding conv convert pre hpre c
    c.length _ hcl
  rw [List.length_append, happ]

/-- Witness for C4: a tag of 99 directly after the header aborts the Bag. -/
theorem unpack_bag_unknown_tag_aborts_witness :
    unpack_bag none id false
      (some (List.replicate 36 0 ++ ([] ++ [99, 0, 0, 0, 0, 0, 0, 0]))) =
      .err (.unsupportedType 99) :=
  unpack_bag_unknown_tag_aborts none id false (List.replicate 36 0) []
    [99, 0, 0, 0, 0, 0, 0, 0] 99 (by decide) StepsOk.nil (by decide)
    (by decide) (by decide) (by decide) (by decide) (by decide) (by decide)

/-- C3: the receive loop of `execute_command`, run over any prefix of
successfully decoded non-terminal replies, (i) stops at the first reply whose
decoded header `Control` is `MQCFC_LAST` and records that terminal reply as
the last entry of the batch, leaving every later transport event untouched;
(ii) treats an `MQMIError` with reason 2033 as normal completion with exactly
the replies accumulated so far; (iii) re-raises any other `MQMIError`. -/
theorem execute_loop_terminal_behaviour :
    ∀ (cc : Nat) (e : Option Nat) (conv : List Byte → List Byte) (cv : Bool)
      (pre tail : List TransportEvent),
      (∀ ev ∈ pre, ∃ l ctl, event_class cc e conv cv ev = .bagC l ctl ∧
        ctl ≠ MQCFC_LAST) →
      (∀ ev l, event_class cc e conv cv ev = .bagC l MQCFC_LAST →
        ∃ acc, execute_loop cc e conv cv (pre ++ ev :: tail) =
          .ok (acc ++ [l]) ∧ acc.length = pre.length) ∧
      (∃ acc, execute_loop cc e conv cv (pre ++ .merr 2033 :: tail) =
        .ok acc ∧ acc.length = pre.length) ∧
      (∀ r, r ≠ 2033 →
        execute_loop cc e conv cv (pre ++ .merr r :: tail) =
          .err (.mqmi r)) := by
  intro cc e conv cv pre tail hpre
  refine ⟨?_, ?_, ?_⟩
  · intro ev l hev
    have hone : execute_loop cc e conv cv (ev :: tail) = .ok [l] := by
      rw [execute_loop_cons]
      simp [hev]
    exact execute_loop_prefix_ok cc e conv cv pre hpre (ev :: tail) [l] hone
  · have hone : execute_loop cc e conv cv (.merr 2033 :: tail) = .ok [] := rfl
    obtain ⟨acc, ha, hl⟩ :=
      execute_loop_prefix_ok cc e conv cv pre hpre (.merr 2033 :: tail) [] hone
    exact ⟨acc, by simpa using ha, hl⟩
  · intro r hr
    have hone : execute_loop cc e conv cv (.merr r :: tail) =
        .err (.mqmi r) := by
      rw [execute_loop_cons]
      have hcl : event_class cc e conv cv (.merr r) = .errC r := by
        simp only [event_class]
        rw [if_neg hr]
      simp only [hcl]
    exact execute_loop_prefix_err cc e conv cv pre hpre (.merr r :: tail) _
      hone

/-- Witness for C3: with no accumulated prefix, a reply whose header carries
`Control = MQCFC_LAST` ends the loop with that one bag recorded; a 2033
timeout ends it with nothing; reason 2045 is re-raised. -/
theorem execute_loop_terminal_behaviour_witness :
    (∃ acc, execute_loop 0 none id false
        ([] ++ TransportEvent.msg 0
          (CFH.pack none { CFH.init with type' := MQCFT_RESPONSE }) :: []) =
        .ok (acc ++ [[PCFStruct.hdr { type' := 2, StrucLength := 36, Version := 3, Command := 0, MsgSeqNumber := 1, Control := 1, CompCode := 0, Reason := 0, ParameterCount := 0 }]]) ∧
      acc.length = 0) ∧
    (∃ acc, execute_loop 0 none id false
        ([] ++ TransportEvent.merr 2033 :: []) = .ok acc ∧
      acc.length = 0) ∧
    execute_loop 0 none id false ([] ++ TransportEvent.merr 2045 :: []) =
      .err (.mqmi 2045) := by
  have h := execute_loop_terminal_behaviour 0 none id false [] []
    (by intro ev hev; exact absurd hev (List.not_mem_nil ev))
  exact ⟨h.1 (TransportEvent.msg 0
      (CFH.pack none { CFH.init with type' := MQCFT_RESPONSE }))
      [PCFStruct.hdr { type' := 2, StrucLength := 36, Version := 3, Command := 0, MsgSeqNumber := 1, Control := 1, CompCode := 0, Reason := 0, ParameterCount := 0 }] rfl,
    h.2.1, h.2.2 2045 (by decide)⟩

/-- C5: within one Bag, the parameter map is built in wire order with Python
dict assignment, so when the same parameter id occurs several times the later
occurrence wins: classifying any bag of successfully decoded parameter
structures yields a dict whose entry for the duplicated id is the value of
its last occurrence. -/
theorem process_bag_last_write_wins :
    ∀ (st : RespState) (d0 : PCFDict) (l1 l2 : List PCFStruct)
      (p : PCFStruct) (P : Nat) (v : PCFVal),
      (∀ s ∈ l1 ++ p :: l2, isHeaderType s.typeOf = false ∧
        ∃ kv, dict_step s = .ok kv) →
      dict_step p = .ok (P, v) →
      (∀ q ∈ l2, ∀ k w, dict_step q = .ok (k, w) → k ≠ P) →
      ∃ d, process_bag (l1 ++ p :: l2) st d0 = .ok (st, d) ∧
        pyLookup d P = some v := by
  intro st d0 l1 l2 p P v hall hp hl2
  refine ⟨(l1 ++ p :: l2).foldl dict_fold_step d0,
    process_bag_params (l1 ++ p :: l2) st d0 hall, ?_⟩
  rw [List.foldl_append, List.foldl_cons, dict_fold_lookup_ne P l2 _ hl2]
  have hstep : dict_fold_step (l1.foldl dict_fold_step d0) p =
      pyInsert (l1.foldl dict_fold_step d0) P v := by
    unfold dict_fold_step
    rw [hp]
  rw [hstep, pyLookup_insert_self]

/-- Witness for C5: the Bag `{7: 1}` then `{7: 2}` yields map value 2 for
parameter 7. -/
theorem process_bag_last_write_wins_witness :
    ∃ d, process_bag
        ([PCFStruct.pin { type' := 3, StrucLength := 16, Parameter := 7, Value := 1 }] ++
          PCFStruct.pin { type' := 3, StrucLength := 16, Parameter := 7, Value := 2 } :: [])
        RespState.empty [] = .ok (RespState.empty, d) ∧
      pyLookup d 7 = some (.num 2) :=
  process_bag_last_write_wins RespState.empty []
    [PCFStruct.pin { type' := 3, StrucLength := 16, Parameter := 7, Value := 1 }] []
    (PCFStruct.pin { type' := 3, StrucLength := 16, Parameter := 7, Value := 2 }) 7 (.num 2)
    (by
      intro s hs
      fin_cases hs
      · exact ⟨rfl, ⟨(7, .num 1), rfl⟩⟩
      · exact ⟨rfl, ⟨(7, .num 2), rfl⟩⟩)
    rfl
    (by intro q hq; exact absurd hq (List.not_mem_nil q))

/-- The `CFST` dispatch arm of `unpackStep` under text conversion. -/
theorem unpackStep_string (e : Option Nat) (conv : List Byte → List Byte)
    (chunk : List Byte) :
    unpackStep e conv true MQCFT_STRING chunk =
      (if (conv (CFST.unpack e chunk).String).length ≠
          (CFST.unpack e chunk).StringLength then
        .error (.transcodeMismatch (conv (CFST.unpack e chunk).String).length
          (CFST.unpack e chunk).StringLength)
      else .ok (.pst { CFST.unpack e chunk with
        String := conv (CFST.unpack e chunk).String })) := rfl

/-- The `CFSL` dispatch arm of `unpackStep` under text conversion. -/
theorem unpackStep_stringlist (e : Option Nat) (conv : List Byte → List Byte)
    (chunk : List Byte) :
    unpackStep e conv true MQCFT_STRING_LIST chunk =
      (if (conv (CFSL.unpack e chunk).StringList).length ≠
          (CFSL.unpack e chunk).StringLength * (CFSL.unpack e chunk).Count then
        .error (.transcodeMismatch
          (conv (CFSL.unpack e chunk).StringList).length
          ((CFSL.unpack e chunk).StringLength * (CFSL.unpack e chunk).Count))
      else .ok (.psl { CFSL.unpack e chunk with
        StringList := conv (CFSL.unpack e chunk).StringList })) := rfl

/-- C6: with text conversion enabled, a `String` structure whose transcoded
payload length differs from the declared `StringLength` makes `unpack_bag`
raise the transcoding-mismatch error, and a `StringList` structure is checked
against `StringLength * Count`; when the lengths agree, decoding succeeds and
the decoded structure carries the transcoded text. -/
theorem unpack_bag_transcode_check :
    (∀ (encoding : Option Nat) (conv : List Byte → List Byte)
        (h36 c : List Byte) (r : CFST),
      h36.length = 36 → 8 ≤ c.length →
      decU32 (isBigEnc encoding) c 0 = MQCFT_STRING →
      c.drop (decU32 (isBigEnc encoding) c 4) = [] →
      CFST.unpack encoding (c.take (decU32 (isBigEnc encoding) c 4)) = r →
      ((conv r.String).length ≠ r.StringLength →
        unpack_bag encoding conv true (some (h36 ++ c)) =
          .err (.transcodeMismatch (conv r.String).length r.StringLength)) ∧
      ((conv r.String).length = r.StringLength →
        unpack_bag encoding conv true (some (h36 ++ c)) =
          .structs [.hdr (CFH.unpack encoding h36),
            .pst { r with String := conv r.String }])) ∧
    (∀ (encoding : Option Nat) (conv : List Byte → List Byte)
        (h36 c : List Byte) (r : CFSL),
      h36.length = 36 → 8 ≤ c.length →
      decU32 (isBigEnc encoding) c 0 = MQCFT_STRING_LIST →
      c.drop (decU32 (isBigEnc encoding) c 4) = [] →
      CFSL.unpack encoding (c.take (decU32 (isBigEnc encoding) c 4)) = r →
      ((conv r.StringList).length ≠ r.StringLength * r.Count →
        unpack_bag encoding conv true (some (h36 ++ c)) =
          .err (.transcodeMismatch (conv r.StringList).length
            (r.StringLength * r.Count))) ∧
      ((conv r.StringList).length = r.StringLength * r.Count →
        unpack_bag encoding conv true (some (h36 ++ c)) =
          .structs [.hdr (CFH.unpack encoding h36),
            .psl { r with StringList := conv r.StringList }])) := by
  constructor
  · intro encoding conv h36 c r h36len h8 htag hdrop hr
    have hne : h36 ++ c ≠ [] := by
      intro hc; have := congrArg List.length hc; simp [h36len] at this
    obtain ⟨m, hm⟩ : ∃ m, c.length = m + 1 := ⟨c.length - 1, by omega⟩
    have hcne : c ≠ [] := by intro hc0; rw [hc0] at h8; simp at h8
    constructor
    · intro hmis
      rw [unpack_bag_some _ _ _ _ hne, drop36_append _ _ h36len, hm,
          unpack_loop_succ, if_neg hcne, if_neg (by omega), if_neg (by omega),
          htag, unpackStep_string, hr, if_pos hmis]
    · intro heq
      rw [unpack_bag_some _ _ _ _ hne, take36_append _ _ h36len,
          drop36_append _ _ h36len, hm, unpack_loop_succ, if_neg hcne,
          if_neg (by omega), if_neg (by omega), htag, unpackStep_string, hr,
          if_neg (fun hcon => hcon heq), hdrop, unpack_loop_nil]
  · intro encoding conv h36 c r h36len h8 htag hdrop hr
    have hne : h36 ++ c ≠ [] := by
      intro hc; have := congrArg List.length hc; simp [h36len] at this
    obtain ⟨m, hm⟩ : ∃ m, c.length = m + 1 := ⟨c.length - 1, by omega⟩
    have hcne : c ≠ [] := by intro hc0; rw [hc0] at h8; simp at h8
    constructor
    · intro hmis
      rw [unpack_bag_some _ _ _ _ hne, drop36_append _ _ h36len, hm,
          unpack_loop_succ, if_neg hcne, if_neg (by omega), if_neg (by omega),
          htag, unpackStep_stringlist, hr, if_pos hmis]
    · intro heq
      rw [unpack_bag_some _ _ _ _ hne, take36_append _ _ h36len,
          drop36_append _ _ h36len, hm, unpack_loop_succ, if_neg hcne,
          if_neg (by omega), if_neg (by omega), htag, unpackStep_stringlist,
          hr, if_neg (fun hcon => hcon heq), hdrop, unpack_loop_nil]

/-- Witness for C6: a `String` declared length 5 whose transcoding yields 6
characters raises the mismatch (concretely `transcodeMismatch 6 5`); the
identity transcoding of the same buffer, with matching counts, succeeds with
the transcoded text. -/
theorem unpack_bag_transcode_check_witness :
    unpack_bag none (fun bs => bs ++ [32]) true
      (some (List.replicate 36 0 ++
        ([4, 0, 0, 0] ++ [25, 0, 0, 0] ++ [7, 0, 0, 0] ++ [0, 0, 0, 0] ++
          [5, 0, 0, 0] ++ [72, 69, 76, 76, 79]))) =
      .err (.transcodeMismatch 6 5) ∧
    unpack_bag none id true
      (some (List.replicate 36 0 ++
        ([4, 0, 0, 0] ++ [25, 0, 0, 0] ++ [7, 0, 0, 0] ++ [0, 0, 0, 0] ++
          [5, 0, 0, 0] ++ [72, 69, 76, 76, 79]))) =
      .structs [.hdr (CFH.unpack none (List.replicate 36 0)),
        .pst { type' := 4, StrucLength := 25, Parameter := 7,
               CodedCharSetId := 0, StringLength := 5,
               String := [72, 69, 76, 76, 79], strFmts := [5] }] :=
  ⟨(unpack_bag_transcode_check.1 none (fun bs => bs ++ [32])
      (List.replicate 36 0)
      ([4, 0, 0, 0] ++ [25, 0, 0, 0] ++ [7, 0, 0, 0] ++ [0, 0, 0, 0] ++
        [5, 0, 0, 0] ++ [72, 69, 76, 76, 79])
      { type' := 4, StrucLength := 25, Parameter := 7, CodedCharSetId := 0,
        StringLength := 5, String := [72, 69, 76, 76, 79], strFmts := [5] }
      (by decide) (by decide) (by decide) (by decide) (by decide)).1
      (by decide),
   (unpack_bag_transcode_check.1 none id (List.replicate 36 0)
      ([4, 0, 0, 0] ++ [25, 0, 0, 0] ++ [7, 0, 0, 0] ++ [0, 0, 0, 0] ++
        [5, 0, 0, 0] ++ [72, 69, 76, 76, 79])
      { type' := 4, StrucLength := 25, Parameter := 7, CodedCharSetId := 0,
        StringLength := 5, String := [72, 69, 76, 76, 79], strFmts := [5] }
      (by decide) (by decide) (by decide) (by decide) (by decide)).2
      (by decide)⟩

/-- Unfolding `response_go` on the exhausted bag list. -/
theorem response_go_nil (st : RespState) (parms : List PCFDict) :
    response_go [] st parms = .ok (st, parms) := rfl

/-- C8: the response aggregate classifies response-typed structures as
headers - the first one becomes the canonical header - and folds everything
else into per-bag parameter maps; a batch of three bags (each a header
followed by parameters) where only the third header carries
`Control = MQCFC_LAST` yields the three parameter maps in receipt order with
the canonical header taken from the first bag's header; and a summary-typed
header stops the classification of the rest of its bag. -/
theorem response_aggregation :
    (∀ (h1 h2 h3 : CFH) (ps1 ps2 ps3 : List PCFStruct),
      h1.type' = MQCFT_RESPONSE → h2.type' = MQCFT_RESPONSE →
      h3.type' = MQCFT_RESPONSE →
      h1.Control = MQCFC_NOT_LAST → h2.Control = MQCFC_NOT_LAST →
      h3.Control = MQCFC_LAST →
      (∀ s ∈ ps1 ++ (ps2 ++ ps3), isHeaderType s.typeOf = false ∧
        ∃ kv, dict_step s = .ok kv) →
      ps1 ≠ [] → ps2 ≠ [] → ps3 ≠ [] →
      PCFCommandResponse_init
          [.hdr h1 :: ps1, .hdr h2 :: ps2, .hdr h3 :: ps3] =
        .ok { headers := [.hdr h1, .hdr h2, .hdr h3],
              header := some (.hdr h1),
              parms := [ps1.foldl dict_fold_step [],
                        ps2.foldl dict_fold_step [],
                        ps3.foldl dict_fold_step []] }) ∧
    (∀ (pre : List PCFStruct) (x : PCFStruct) (post : List PCFStruct)
        (st : RespState) (d : PCFDict),
      x.typeOf = MQCFT_XR_SUMMARY →
      (∀ q ∈ pre, q.typeOf ≠ MQCFT_XR_SUMMARY) →
      process_bag (pre ++ x :: post) st d = process_bag (pre ++ [x]) st d) := by
  constructor
  · intro h1 h2 h3 ps1 ps2 ps3 ht1 ht2 ht3 hc1 hc2 hc3 hall hne1 hne2 hne3
    have hall1 : ∀ s ∈ ps1, isHeaderType s.typeOf = false ∧
        ∃ kv, dict_step s = .ok kv := fun s hs => hall s (by simp [hs])
    have hall2 : ∀ s ∈ ps2, isHeaderType s.typeOf = false ∧
        ∃ kv, dict_step s = .ok kv := fun s hs => hall s (by simp [hs])
    have hall3 : ∀ s ∈ ps3, isHeaderType s.typeOf = false ∧
        ∃ kv, dict_step s = .ok kv := fun s hs => hall s (by simp [hs])
    have hh1 : isHeaderType (PCFStruct.hdr h1).typeOf = true := by
      show isHeaderType h1.type' = true
      rw [ht1]; rfl
    have hh2 : isHeaderType (PCFStruct.hdr h2).typeOf = true := by
      show isHeaderType h2.type' = true
      rw [ht2]; rfl
    have hh3 : isHeaderType (PCFStruct.hdr h3).typeOf = true := by
      show isHeaderType h3.type' = true
      rw [ht3]; rfl
    have hs1 : (PCFStruct.hdr h1).typeOf ≠ MQCFT_XR_SUMMARY := by
      show h1.type' ≠ MQCFT_XR_SUMMARY
      rw [ht1]; decide
    have hs2 : (PCFStruct.hdr h2).typeOf ≠ MQCFT_XR_SUMMARY := by
      show h2.type' ≠ MQCFT_XR_SUMMARY
      rw [ht2]; decide
    have hs3 : (PCFStruct.hdr h3).typeOf ≠ MQCFT_XR_SUMMARY := by
      show h3.type' ≠ MQCFT_XR_SUMMARY
      rw [ht3]; decide
    have hb1 : process_bag (.hdr h1 :: ps1) RespState.empty [] =
        .ok ({ headers := [.hdr h1], header := some (.hdr h1) },
          ps1.foldl dict_fold_step []) := by
      rw [process_bag_cons_hdr _ _ _ _ hh1 hs1,
          process_bag_params ps1 _ [] hall1]
      rfl
    have hb2 : process_bag (.hdr h2 :: ps2)
        { headers := [.hdr h1], header := some (.hdr h1) } [] =
        .ok ({ headers := [.hdr h1, .hdr h2], header := some (.hdr h1) },
          ps2.foldl dict_fold_step []) := by
      rw [process_bag_cons_hdr _ _ _ _ hh2 hs2,
          process_bag_params ps2 _ [] hall2]
      rfl
    have hb3 : process_bag (.hdr h3 :: ps3)
        { headers := [.hdr h1, .hdr h2], header := some (.hdr h1) } [] =
        .ok ({ headers := [.hdr h1, .hdr h2, .hdr h3],
               header := some (.hdr h1) },
          ps3.foldl dict_fold_step []) := by
      rw [process_bag_cons_hdr _ _ _ _ hh3 hs3,
          process_bag_params ps3 _ [] hall3]
      rfl
    have hd1 : ps1.foldl dict_fold_step [] ≠ [] :=
      dict_fold_ne_nil_of_ne_nil ps1 (fun s hs => (hall1 s hs).2) hne1
    have hd2 : ps2.foldl dict_fold_step [] ≠ [] :=
      dict_fold_ne_nil_of_ne_nil ps2 (fun s hs => (hall2 s hs).2) hne2
    have hd3 : ps3.foldl dict_fold_step [] ≠ [] :=
      dict_fold_ne_nil_of_ne_nil ps3 (fun s hs => (hall3 s hs).2) hne3
    simp only [PCFCommandResponse_init]
    rw [if_neg (by simp)]
    rw [response_go_cons]
    simp only [hb1]
    rw [if_neg hd1]
    rw [response_go_cons]
    simp only [hb2]
    rw [if_neg hd2]
    rw [response_go_cons]
    simp only [hb3]
    rw [if_neg hd3]
    rw [response_go_nil]
    rfl
  · intro pre x post st d hx hpre
    exact process_bag_summary_stop pre x post st d hx hpre

/-- Witness for C8: three reply bags, each one response header followed by
one integer parameter, with only the third header carrying
`Control = MQCFC_LAST`, aggregate into three parameter maps in receipt order
with the first header canonical; and a summary header right at the front of
a bag drops its remaining structures. -/
theorem response_aggregation_witness :
    PCFCommandResponse_init
        [PCFStruct.hdr { type' := 2, StrucLength := 36, Version := 3, Command := 0, MsgSeqNumber := 1, Control := 0, CompCode := 0, Reason := 0, ParameterCount := 1 } ::
          [PCFStruct.pin { type' := 3, StrucLength := 16, Parameter := 1, Value := 10 }],
         PCFStruct.hdr { type' := 2, StrucLength := 36, Version := 3, Command := 0, MsgSeqNumber := 2, Control := 0, CompCode := 0, Reason := 0, ParameterCount := 1 } ::
          [PCFStruct.pin { type' := 3, StrucLength := 16, Parameter := 2, Value := 20 }],
         PCFStruct.hdr { type' := 2, StrucLength := 36, Version := 3, Command := 0, MsgSeqNumber := 3, Control := 1, CompCode := 0, Reason := 0, ParameterCount := 1 } ::
          [PCFStruct.pin { type' := 3, StrucLength := 16, Parameter := 3, Value := 30 }]] =
      .ok { headers :=
              [PCFStruct.hdr { type' := 2, StrucLength := 36, Version := 3, Command := 0, MsgSeqNumber := 1, Control := 0, CompCode := 0, Reason := 0, ParameterCount := 1 },
               PCFStruct.hdr { type' := 2, StrucLength := 36, Version := 3, Command := 0, MsgSeqNumber := 2, Control := 0, CompCode := 0, Reason := 0, ParameterCount := 1 },
               PCFStruct.hdr { type' := 2, StrucLength := 36, Version := 3, Command := 0, MsgSeqNumber := 3, Control := 1, CompCode := 0, Reason := 0, ParameterCount := 1 }],
            header := some (PCFStruct.hdr { type' := 2, StrucLength := 36, Version := 3, Command := 0, MsgSeqNumber := 1, Control := 0, CompCode := 0, Reason := 0, ParameterCount := 1 }),
            parms := [[(1, PCFVal.num 10)], [(2, PCFVal.num 20)],
                      [(3, PCFVal.num 30)]] } ∧
    process_bag
        ([] ++ PCFStruct.hdr { type' := 19, StrucLength := 36, Version := 3, Command := 0, MsgSeqNumber := 1, Control := 1, CompCode := 0, Reason := 0, ParameterCount := 0 } ::
          [PCFStruct.pin { type' := 3, StrucLength := 16, Parameter := 9, Value := 90 }])
        RespState.empty [] =
      process_bag
        ([] ++ [PCFStruct.hdr { type' := 19, StrucLength := 36, Version := 3, Command := 0, MsgSeqNumber := 1, Control := 1, CompCode := 0, Reason := 0, ParameterCount := 0 }])
        RespState.empty [] :=
  ⟨response_aggregation.1
      { type' := 2, StrucLength := 36, Version := 3, Command := 0, MsgSeqNumber := 1, Control := 0, CompCode := 0, Reason := 0, ParameterCount := 1 }
      { type' := 2, StrucLength := 36, Version := 3, Command := 0, MsgSeqNumber := 2, Control := 0, CompCode := 0, Reason := 0, ParameterCount := 1 }
      { type' := 2, StrucLength := 36, Version := 3, Command := 0, MsgSeqNumber := 3, Control := 1, CompCode := 0, Reason := 0, ParameterCount := 1 }
      [PCFStruct.pin { type' := 3, StrucLength := 16, Parameter := 1, Value := 10 }]
      [PCFStruct.pin { type' := 3, StrucLength := 16, Parameter := 2, Value := 20 }]
      [PCFStruct.pin { type' := 3, StrucLength := 16, Parameter := 3, Value := 30 }]
      rfl rfl rfl rfl rfl rfl
      (by
        intro s hs
        fin_cases hs
        · exact ⟨rfl, ⟨(1, .num 10), rfl⟩⟩
        · exact ⟨rfl, ⟨(2, .num 20), rfl⟩⟩
        · exact ⟨rfl, ⟨(3, .num 30), rfl⟩⟩)
      (by simp) (by simp) (by simp),
   response_aggregation.2 []
      (PCFStruct.hdr { type' := 19, StrucLength := 36, Version := 3, Command := 0, MsgSeqNumber := 1, Control := 1, CompCode := 0, Reason := 0, ParameterCount := 0 })
      [PCFStruct.pin { type' := 3, StrucLength := 16, Parameter := 9, Value := 90 }]
      RespState.empty [] rfl
      (by intro q hq; exact absurd hq (List.not_mem_nil q))⟩
